import Mathlib

/-!
# Verification of the tic-tac-toe engine (`src/TicTacToe.py`)

Shallow embedding of the `TicTacToe` class: the game state, the move
operation `add_move`, terminal detection `check_win`, the move
enumeration `get_available_moves`, and the recursive `minimax` search.

Conventions of the embedding:
* Python lists become Lean `List`s; the 9-cell board is a `List Cell`.
* Move indices are naturals.  Python also accepts negative indices
  (wrapping from the end of the list); the program only ever produces
  nonnegative indices, so the embedding restricts to `Nat` and models
  Python's `IndexError` for an index beyond the end of the list.
* The mutable object is threaded explicitly: `add_move` returns the
  updated state (or, on `IndexError`, the partially updated state the
  exception leaves behind), and `minimaxFuel` returns, next to the
  `(bestMove, bestScore)` pair, the state of `self` after the call —
  mirroring which object each mutation in the source targets.
* The recursion of `minimax` is embedded with a fuel parameter
  (structural recursion) so that it evaluates by kernel reduction;
  `minimax` instantiates the fuel at one more than the number of
  available moves, which is proven sufficient (`minimaxFuel_congr`).
-/

namespace TicTacToe

/-- A board cell: `' '`, `'x'` or `'o'` in the source. -/
inductive Cell where
  | empty : Cell
  | x : Cell
  | o : Cell
deriving DecidableEq, Repr

/-- `TicTacToe.PLAYER_ONE = 0`. -/
def PLAYER_ONE : Nat := 0

/-- `TicTacToe.PLAYER_TWO = 1`. -/
def PLAYER_TWO : Nat := 1

/-- The instance attributes set up by `__init__`. -/
structure GameState where
  currentBoard : List Cell
  playerOneMoves : List Nat
  playerTwoMoves : List Nat
  allMoves : List Nat
  currentPlayer : Nat
deriving DecidableEq, Repr

/-- `__init__`: empty board of 9 cells, no moves, `PLAYER_ONE` to move. -/
def init : GameState :=
  { currentBoard := List.replicate 9 Cell.empty
    playerOneMoves := []
    playerTwoMoves := []
    allMoves := []
    currentPlayer := PLAYER_ONE }

/-- `get_num_moves`: `len(self.allMoves)`. -/
def get_num_moves (g : GameState) : Nat :=
  g.allMoves.length

/-- `get_available_moves`:
`[index for index, value in enumerate(self.currentBoard) if value == ' ']`. -/
def get_available_moves (g : GameState) : List Nat :=
  ((g.currentBoard.enum.filter (fun p => p.2 == Cell.empty)).map Prod.fst)

/-- `copy.deepcopy` on a game object: in the value embedding a deep copy
is the value itself; what matters is that `minimax` applies `add_move`
to the copy, never to `self`. -/
def deepcopy (g : GameState) : GameState := g

/-- The mark recorded by `add_move`: `'x'` for `PLAYER_ONE`, else `'o'`. -/
def add_move_symbol (g : GameState) : Cell :=
  if g.currentPlayer = PLAYER_ONE then Cell.x else Cell.o

/-- The two history appends `add_move` performs before touching the
board: the move index is appended to the acting player's list and to
`allMoves`.  (In the source these appends happen before the board
write, so they survive an `IndexError` raised by the write.) -/
def add_move_hist (g : GameState) (moveIndex : Nat) : GameState :=
  if g.currentPlayer = PLAYER_ONE then
    { g with playerOneMoves := g.playerOneMoves ++ [moveIndex]
             allMoves := g.allMoves ++ [moveIndex] }
  else
    { g with playerTwoMoves := g.playerTwoMoves ++ [moveIndex]
             allMoves := g.allMoves ++ [moveIndex] }

/-- The successful path of `add_move`: histories appended, the cell at
`moveIndex` overwritten with the acting player's mark (no emptiness
check in the source!), and `currentPlayer` toggled. -/
def add_move_ok (g : GameState) (moveIndex : Nat) : GameState :=
  let g1 := add_move_hist g moveIndex
  { g1 with currentBoard := g1.currentBoard.set moveIndex (add_move_symbol g)
            currentPlayer := (g1.currentPlayer + 1) % 2 }

/-- A Python exception relevant to `add_move`. -/
inductive PyError where
  | indexError : PyError
deriving DecidableEq, Repr

/-- `add_move(self, moveIndex)`.  The source performs no validation:
it appends to the player's history and `allMoves`, then executes
`self.currentBoard[moveIndex] = symbol`.  For an in-range index this
always succeeds (even on an occupied cell, which is silently
overwritten) and the player is toggled; for an index past the end of
the board the assignment raises `IndexError`, leaving the object with
the histories already appended but board and `currentPlayer`
untouched.  The error case carries that partially mutated state. -/
def add_move (g : GameState) (moveIndex : Nat) :
    Except (PyError × GameState) GameState :=
  if moveIndex < g.currentBoard.length then
    Except.ok (add_move_ok g moveIndex)
  else
    Except.error (PyError.indexError, add_move_hist g moveIndex)

/-- The `winningCombos` constant of `check_win`. -/
def winningCombos : List (List Nat) :=
  [[0,1,2],[3,4,5],[6,7,8],[0,3,6],[1,4,7],[2,5,8],[0,4,8],[2,4,6]]

/-- One iteration of the `for combo in winningCombos` loop of
`check_win`, acting on the `(winner, over)` accumulator. -/
def check_win_step (g : GameState) (acc : Int × Bool) (combo : List Nat) :
    Int × Bool :=
  if combo.all (fun i => g.playerOneMoves.contains i) then
    ((PLAYER_ONE : Int), true)
  else if combo.all (fun i => g.playerTwoMoves.contains i) then
    ((PLAYER_TWO : Int), true)
  else acc

/-- `check_win`: `winner` starts at `-1`, `over` starts as
`len(self.allMoves) == 9`; the loop overwrites them whenever all three
indices of a combo are contained in a player's move list
(`set(combo).issubset(...)`), checking player one first.  -/
def check_win (g : GameState) : Int × Bool :=
  winningCombos.foldl (check_win_step g)
    ((-1 : Int), g.allMoves.length == 9)

/-- The terminal branch of `minimax`: the best move is
`self.allMoves[-1]` (the embedding returns `0` for an empty history,
where Python would raise `IndexError`; unreachable on well-formed
states) and the score is determined by the winner and game length. -/
def minimaxBase (winner : Int) (g : GameState) : Nat × Int :=
  (g.allMoves.getLast?.getD 0,
   if winner = (PLAYER_ONE : Int) then (get_num_moves g : Int) - 10
   else if winner = (PLAYER_TWO : Int) then 10 - (get_num_moves g : Int)
   else 0)

/-- The tail of the recursive branch of `minimax`: given the collected
`moves` and `scores` lists, `bestScore = max(scores)` (or `min`), and
`bestMove = moves[scores.index(bestScore)]`.  Python's `max`/`min`
raise `ValueError` on an empty list; the embedding returns `(0, 0)`
there (unreachable on well-formed states). -/
def minimaxCombine (maximize : Bool) (moves : List Nat)
    (scores : List Int) : Nat × Int :=
  match scores with
  | [] => (0, 0)
  | s0 :: rest =>
    let bestScore := if maximize then rest.foldl max s0 else rest.foldl min s0
    (moves.getD ((s0 :: rest).indexOf bestScore) 0, bestScore)

/-- `minimax(self, maximize)`, with an explicit fuel bounding the
recursion depth.  The result is `((bestMove, bestScore), selfAfter)`:
the second component is the state of `self` when the call returns —
the body only reads `self` and mutates the `deepcopy`, so `self` is
returned as received.  For each available move the source builds
`possibleGame = copy.deepcopy(self)` and calls
`possibleGame.add_move(possibleMove)`; the index is available, hence
in range, so `add_move` takes its successful path `add_move_ok`
(lemma `add_move_eq_ok_of_mem_avail`). -/
def minimaxFuel : Nat → GameState → Bool → (Nat × Int) × GameState
  | 0, g, _ => ((0, 0), g)
  | fuel+1, g, maximize =>
    let wo := check_win g
    if wo.2 then
      (minimaxBase wo.1 g, g)
    else
      let pairs := (get_available_moves g).map (fun possibleMove =>
        let possibleGame := deepcopy g
        let next := (minimaxFuel fuel (add_move_ok possibleGame possibleMove)
          (!maximize)).1
        ((if maximize then possibleMove else next.1), next.2))
      (minimaxCombine maximize (pairs.map Prod.fst) (pairs.map Prod.snd), g)

/-- `minimax(self, maximize)`: the fuel is instantiated at one more
than the number of available moves, which bounds the recursion depth
(each recursive call has exactly one fewer available move). -/
def minimax (g : GameState) (maximize : Bool) : Nat × Int :=
  (minimaxFuel ((get_available_moves g).length + 1) g maximize).1

/-- A player holds a winning line: all three indices of one of the 8
`winningCombos` are contained in the player's move list.  (The
specification's characterization of winner detection.) -/
def has_line (moves : List Nat) : Bool :=
  winningCombos.any (fun combo => combo.all (fun i => moves.contains i))

/-- Well-formedness of a state as the specification describes it: the
board has 9 cells and the number of completed moves equals the number
of occupied cells (equivalently, moves plus available cells is 9). -/
def WellFormed (g : GameState) : Prop :=
  g.currentBoard.length = 9 ∧
  g.allMoves.length + (get_available_moves g).length = 9

instance : DecidablePred WellFormed := fun g => by
  unfold WellFormed; infer_instance

/-- The states reachable from the fresh game by valid moves: a move is
valid when its index is currently available (in range and empty). -/
inductive Reachable : GameState → Prop where
  | base : Reachable init
  | step {g : GameState} {i : Nat} : Reachable g →
      i ∈ get_available_moves g → Reachable (add_move_ok g i)

/-- Entries of a list at positions of parity `p` (`p = 0`: positions
0, 2, 4, …; `p = 1`: positions 1, 3, 5, …). -/
def entriesAt : Nat → List Nat → List Nat
  | _, [] => []
  | p, a :: l => if p = 0 then a :: entriesAt 1 l else entriesAt 0 l

/-- A strategy certificate for bounding the score computed by
`minimax`: `pick i c` commits to the single move `i` at a node where
the bounded player moves, `branch cs` covers all available moves (in
ascending order) at a node where the adversary moves, and `stop`
marks a node expected to be terminal. -/
inductive Cert where
  | stop : Cert
  | pick : Nat → Cert → Cert
  | branch : List Cert → Cert

/-- Certificate checker: `certBound fuel lower b c g m = true`
certifies `b ≤ score` (when `lower = true`) or `score ≤ b` (when
`lower = false`) for the score of `minimaxFuel fuel g m` (see
`certBound_le_minimaxFuel` and `minimaxFuel_le_certBound`).  At a
terminal state the score is computed outright; otherwise a `pick`
step is accepted exactly on the bounded player's turn (`m = lower`)
and a `branch` step on the adversary's turn, where it must cover
every available move. -/
def certBound : Nat → Bool → Int → Cert → GameState → Bool → Bool
  | 0, _, _, _, _, _ => false
  | fuel+1, lower, b, c, g, m =>
    let wo := check_win g
    if wo.2 then
      let score : Int :=
        if wo.1 = (PLAYER_ONE : Int) then (get_num_moves g : Int) - 10
        else if wo.1 = (PLAYER_TWO : Int) then 10 - (get_num_moves g : Int)
        else 0
      if lower then decide (b ≤ score) else decide (score ≤ b)
    else
      match c with
      | .stop => false
      | .pick i c' =>
        (m == lower) && (get_available_moves g).contains i &&
          certBound fuel lower b c' (add_move_ok g i) (!m)
      | .branch cs =>
        (m != lower) && (cs.length == (get_available_moves g).length) &&
          !(cs.length == 0) &&
          ((cs.zip (get_available_moves g)).all (fun p =>
            certBound fuel lower b p.1 (add_move_ok g p.2) (!m)))

/-- Certificate (generated offline, verified by `certBound` below)
that the `minimax` score of the empty board with `maximize = true`
is at least 0. -/
def certL : Cert := (.pick 4 (.branch [(.pick 8 (.branch [(.pick 7 (.branch [.stop, (.pick 5 (.branch [.stop, .stop])), (.pick 3 (.branch [.stop, (.pick 2 .stop)])), (.pick 2 (.branch [.stop, (.pick 3 .stop)]))])), (.pick 5 (.branch [.stop, (.pick 1 (.branch [.stop, (.pick 6 .stop)])), (.pick 7 (.branch [.stop, .stop])), (.pick 6 (.branch [.stop, (.pick 1 .stop)]))])), (.pick 5 (.branch [(.pick 7 (.branch [.stop, .stop])), (.pick 1 (.branch [.stop, (.pick 6 .stop)])), .stop, (.pick 1 (.branch [(.pick 6 .stop), .stop]))])), (.pick 3 (.branch [(.pick 7 (.branch [.stop, (.pick 2 .stop)])), (.pick 6 (.branch [.stop, (.pick 1 .stop)])), (.pick 2 (.branch [(.pick 7 .stop), (.pick 1 .stop)])), (.pick 1 (.branch [(.pick 6 .stop), (.pick 2 .stop)]))])), (.pick 2 (.branch [(.pick 7 (.branch [.stop, (.pick 3 .stop)])), .stop, (.pick 1 (.branch [.stop, (.pick 3 .stop)])), (.pick 1 (.branch [.stop, (.pick 3 .stop)]))])), (.pick 1 (.branch [(.pick 6 (.branch [(.pick 5 .stop), (.pick 3 .stop)])), (.pick 5 (.branch [(.pick 6 .stop), .stop])), (.pick 3 (.branch [(.pick 6 .stop), (.pick 2 .stop)])), (.pick 2 (.branch [.stop, (.pick 3 .stop)]))]))])), (.pick 7 (.branch [(.pick 8 (.branch [.stop, (.pick 5 (.branch [.stop, .stop])), (.pick 3 (.branch [.stop, (.pick 2 .stop)])), (.pick 2 (.branch [.stop, (.pick 3 .stop)]))])), (.pick 6 (.branch [.stop, (.pick 5 (.branch [.stop, (.pick 0 .stop)])), (.pick 3 (.branch [.stop, .stop])), (.pick 0 (.branch [(.pick 5 .stop), .stop]))])), (.pick 5 (.branch [(.pick 8 (.branch [.stop, .stop])), (.pick 6 (.branch [.stop, (.pick 0 .stop)])), (.pick 2 (.branch [.stop, (.pick 0 .stop)])), (.pick 0 (.branch [(.pick 6 .stop), (.pick 2 .stop)]))])), (.pick 3 (.branch [(.pick 8 (.branch [.stop, (.pick 2 .stop)])), (.pick 6 (.branch [.stop, .stop])), (.pick 2 (.branch [(.pick 8 .stop), (.pick 0 .stop)])), (.pick 0 (.branch [.stop, (.pick 2 .stop)]))])), (.pick 2 (.branch [(.pick 8 (.branch [.stop, (.pick 3 .stop)])), (.pick 5 (.branch [.stop, (.pick 0 .stop)])), (.pick 3 (.branch [(.pick 8 .stop), (.pick 0 .stop)])), (.pick 0 (.branch [(.pick 5 .stop), (.pick 3 .stop)]))])), (.pick 0 (.branch [(.pick 6 (.branch [(.pick 5 .stop), .stop])), (.pick 5 (.branch [(.pick 6 .stop), (.pick 2 .stop)])), (.pick 3 (.branch [.stop, (.pick 2 .stop)])), (.pick 2 (.branch [(.pick 5 .stop), (.pick 3 .stop)]))]))])), (.pick 6 (.branch [(.pick 3 (.branch [.stop, (.pick 1 (.branch [(.pick 8 .stop), .stop])), (.pick 8 (.branch [.stop, (.pick 1 .stop)])), (.pick 7 (.branch [.stop, .stop]))])), (.pick 7 (.branch [.stop, (.pick 5 (.branch [.stop, (.pick 0 .stop)])), (.pick 3 (.branch [.stop, .stop])), (.pick 0 (.branch [(.pick 5 .stop), .stop]))])), (.pick 5 (.branch [(.pick 8 (.branch [.stop, (.pick 1 .stop)])), (.pick 7 (.branch [.stop, (.pick 0 .stop)])), (.pick 1 (.branch [(.pick 8 .stop), (.pick 0 .stop)])), (.pick 0 (.branch [(.pick 7 .stop), (.pick 1 .stop)]))])), (.pick 3 (.branch [(.pick 1 (.branch [(.pick 8 .stop), .stop])), (.pick 7 (.branch [.stop, .stop])), (.pick 1 (.branch [(.pick 8 .stop), .stop])), .stop])), (.pick 1 (.branch [(.pick 8 (.branch [(.pick 5 .stop), (.pick 3 .stop)])), (.pick 5 (.branch [(.pick 8 .stop), (.pick 0 .stop)])), (.pick 3 (.branch [(.pick 8 .stop), .stop])), (.pick 0 (.branch [(.pick 5 .stop), .stop]))])), (.pick 0 (.branch [(.pick 7 (.branch [(.pick 5 .stop), .stop])), (.pick 1 (.branch [.stop, (.pick 5 .stop)])), .stop, (.pick 1 (.branch [(.pick 5 .stop), .stop]))]))])), (.pick 5 (.branch [(.pick 8 (.branch [(.pick 7 (.branch [.stop, .stop])), (.pick 1 (.branch [.stop, (.pick 6 .stop)])), .stop, (.pick 1 (.branch [(.pick 6 .stop), .stop]))])), (.pick 7 (.branch [(.pick 8 (.branch [.stop, .stop])), (.pick 6 (.branch [.stop, (.pick 0 .stop)])), (.pick 2 (.branch [.stop, (.pick 0 .stop)])), (.pick 0 (.branch [(.pick 6 .stop), (.pick 2 .stop)]))])), (.pick 6 (.branch [(.pick 8 (.branch [.stop, (.pick 1 .stop)])), (.pick 7 (.branch [.stop, (.pick 0 .stop)])), (.pick 1 (.branch [(.pick 8 .stop), (.pick 0 .stop)])), (.pick 0 (.branch [(.pick 7 .stop), (.pick 1 .stop)]))])), (.pick 2 (.branch [.stop, (.pick 7 (.branch [.stop, (.pick 0 .stop)])), (.pick 1 (.branch [.stop, .stop])), (.pick 0 (.branch [(.pick 7 .stop), .stop]))])), (.pick 1 (.branch [(.pick 8 (.branch [(.pick 6 .stop), .stop])), (.pick 6 (.branch [(.pick 8 .stop), (.pick 0 .stop)])), (.pick 2 (.branch [.stop, .stop])), (.pick 0 (.branch [(.pick 6 .stop), .stop]))])), (.pick 0 (.branch [(.pick 7 (.branch [(.pick 6 .stop), (.pick 2 .stop)])), (.pick 6 (.branch [(.pick 7 .stop), (.pick 1 .stop)])), (.pick 2 (.branch [(.pick 7 .stop), .stop])), (.pick 1 (.branch [(.pick 6 .stop), .stop]))]))])), (.pick 3 (.branch [(.pick 8 (.branch [(.pick 7 (.branch [.stop, (.pick 2 .stop)])), (.pick 6 (.branch [.stop, (.pick 1 .stop)])), (.pick 2 (.branch [(.pick 7 .stop), (.pick 1 .stop)])), (.pick 1 (.branch [(.pick 6 .stop), (.pick 2 .stop)]))])), (.pick 7 (.branch [(.pick 8 (.branch [.stop, (.pick 2 .stop)])), (.pick 6 (.branch [.stop, .stop])), (.pick 2 (.branch [(.pick 8 .stop), (.pick 0 .stop)])), (.pick 0 (.branch [.stop, (.pick 2 .stop)]))])), (.pick 6 (.branch [(.pick 1 (.branch [(.pick 8 .stop), .stop])), (.pick 7 (.branch [.stop, .stop])), (.pick 1 (.branch [(.pick 8 .stop), .stop])), .stop])), (.pick 2 (.branch [(.pick 8 (.branch [(.pick 7 .stop), (.pick 1 .stop)])), (.pick 7 (.branch [(.pick 8 .stop), (.pick 0 .stop)])), (.pick 1 (.branch [(.pick 8 .stop), .stop])), (.pick 0 (.branch [(.pick 7 .stop), .stop]))])), (.pick 1 (.branch [(.pick 8 (.branch [(.pick 6 .stop), (.pick 2 .stop)])), (.pick 6 (.branch [(.pick 8 .stop), .stop])), (.pick 2 (.branch [(.pick 8 .stop), .stop])), (.pick 0 (.branch [.stop, .stop]))])), (.pick 0 (.branch [(.pick 7 (.branch [.stop, (.pick 2 .stop)])), .stop, (.pick 1 (.branch [.stop, .stop])), (.pick 1 (.branch [.stop, .stop]))]))])), (.pick 2 (.branch [(.pick 1 (.branch [.stop, (.pick 8 (.branch [.stop, (.pick 3 .stop)])), (.pick 3 (.branch [(.pick 8 .stop), .stop])), (.pick 5 (.branch [.stop, .stop]))])), (.pick 7 (.branch [(.pick 8 (.branch [.stop, (.pick 3 .stop)])), (.pick 5 (.branch [.stop, (.pick 0 .stop)])), (.pick 3 (.branch [(.pick 8 .stop), (.pick 0 .stop)])), (.pick 0 (.branch [(.pick 5 .stop), (.pick 3 .stop)]))])), (.pick 5 (.branch [.stop, (.pick 7 (.branch [.stop, (.pick 0 .stop)])), (.pick 1 (.branch [.stop, .stop])), (.pick 0 (.branch [(.pick 7 .stop), .stop]))])), (.pick 3 (.branch [(.pick 8 (.branch [(.pick 7 .stop), (.pick 1 .stop)])), (.pick 7 (.branch [(.pick 8 .stop), (.pick 0 .stop)])), (.pick 1 (.branch [(.pick 8 .stop), .stop])), (.pick 0 (.branch [(.pick 7 .stop), .stop]))])), (.pick 1 (.branch [(.pick 3 (.branch [(.pick 8 .stop), .stop])), (.pick 5 (.branch [.stop, .stop])), (.pick 3 (.branch [(.pick 8 .stop), .stop])), .stop])), (.pick 0 (.branch [(.pick 3 (.branch [(.pick 7 .stop), .stop])), (.pick 5 (.branch [(.pick 7 .stop), .stop])), (.pick 3 (.branch [(.pick 7 .stop), .stop])), .stop]))])), (.pick 1 (.branch [(.pick 8 (.branch [(.pick 6 (.branch [(.pick 5 .stop), (.pick 3 .stop)])), (.pick 5 (.branch [(.pick 6 .stop), .stop])), (.pick 3 (.branch [(.pick 6 .stop), (.pick 2 .stop)])), (.pick 2 (.branch [.stop, (.pick 3 .stop)]))])), (.pick 6 (.branch [(.pick 8 (.branch [(.pick 5 .stop), (.pick 3 .stop)])), (.pick 5 (.branch [(.pick 8 .stop), (.pick 0 .stop)])), (.pick 3 (.branch [(.pick 8 .stop), .stop])), (.pick 0 (.branch [(.pick 5 .stop), .stop]))])), (.pick 5 (.branch [(.pick 8 (.branch [(.pick 6 .stop), .stop])), (.pick 6 (.branch [(.pick 8 .stop), (.pick 0 .stop)])), (.pick 2 (.branch [.stop, .stop])), (.pick 0 (.branch [(.pick 6 .stop), .stop]))])), (.pick 3 (.branch [(.pick 8 (.branch [(.pick 6 .stop), (.pick 2 .stop)])), (.pick 6 (.branch [(.pick 8 .stop), .stop])), (.pick 2 (.branch [(.pick 8 .stop), .stop])), (.pick 0 (.branch [.stop, .stop]))])), (.pick 2 (.branch [(.pick 3 (.branch [(.pick 8 .stop), .stop])), (.pick 5 (.branch [.stop, .stop])), (.pick 3 (.branch [(.pick 8 .stop), .stop])), .stop])), (.pick 0 (.branch [(.pick 3 (.branch [.stop, .stop])), (.pick 5 (.branch [(.pick 6 .stop), .stop])), (.pick 3 (.branch [.stop, .stop])), .stop]))])), (.pick 0 (.branch [(.pick 7 (.branch [(.pick 6 (.branch [(.pick 5 .stop), .stop])), (.pick 5 (.branch [(.pick 6 .stop), (.pick 2 .stop)])), (.pick 3 (.branch [.stop, (.pick 2 .stop)])), (.pick 2 (.branch [(.pick 5 .stop), (.pick 3 .stop)]))])), (.pick 1 (.branch [(.pick 6 (.branch [.stop, (.pick 5 .stop)])), .stop, (.pick 3 (.branch [.stop, .stop])), (.pick 3 (.branch [.stop, .stop]))])), (.pick 5 (.branch [(.pick 7 (.branch [(.pick 6 .stop), (.pick 2 .stop)])), (.pick 6 (.branch [(.pick 7 .stop), (.pick 1 .stop)])), (.pick 2 (.branch [(.pick 7 .stop), .stop])), (.pick 1 (.branch [(.pick 6 .stop), .stop]))])), (.pick 3 (.branch [(.pick 7 (.branch [.stop, (.pick 2 .stop)])), .stop, (.pick 1 (.branch [.stop, .stop])), (.pick 1 (.branch [.stop, .stop]))])), (.pick 2 (.branch [(.pick 3 (.branch [(.pick 7 .stop), .stop])), (.pick 5 (.branch [(.pick 7 .stop), .stop])), (.pick 3 (.branch [(.pick 7 .stop), .stop])), .stop])), (.pick 1 (.branch [(.pick 3 (.branch [.stop, .stop])), (.pick 5 (.branch [(.pick 6 .stop), .stop])), (.pick 3 (.branch [.stop, .stop])), .stop]))]))]))

/-- Certificate (generated offline, verified by `certBound` below)
that the `minimax` score of the empty board with `maximize = true`
is at most 0. -/
def certU : Cert := (.branch [(.pick 1 (.branch [(.pick 3 (.branch [(.pick 5 (.branch [.stop, (.pick 6 (.branch [.stop])), .stop])), (.pick 4 (.branch [(.pick 8 (.branch [.stop])), (.pick 6 (.branch [.stop])), .stop])), (.pick 5 (.branch [.stop, (.pick 8 (.branch [.stop])), (.pick 7 (.branch [.stop]))])), (.pick 4 (.branch [(.pick 6 (.branch [.stop])), (.pick 8 (.branch [.stop])), (.pick 6 (.branch [.stop]))])), (.pick 5 (.branch [.stop, (.pick 7 (.branch [.stop])), (.pick 6 (.branch [.stop]))]))])), (.pick 2 (.branch [(.pick 5 (.branch [.stop, (.pick 6 (.branch [.stop])), .stop])), (.pick 6 (.branch [.stop, (.pick 8 (.branch [.stop])), (.pick 7 (.branch [.stop]))])), .stop, (.pick 4 (.branch [(.pick 8 (.branch [.stop])), .stop, (.pick 5 (.branch [.stop]))])), (.pick 5 (.branch [.stop, .stop, (.pick 4 (.branch [.stop]))]))])), (.pick 2 (.branch [(.pick 5 (.branch [.stop, (.pick 6 (.branch [.stop])), .stop])), (.pick 3 (.branch [(.pick 7 (.branch [.stop])), (.pick 6 (.branch [.stop])), .stop])), (.pick 3 (.branch [(.pick 7 (.branch [.stop])), (.pick 5 (.branch [.stop])), .stop])), (.pick 3 (.branch [(.pick 6 (.branch [.stop])), (.pick 5 (.branch [.stop])), .stop])), .stop])), (.pick 2 (.branch [(.pick 6 (.branch [.stop, (.pick 8 (.branch [.stop])), (.pick 7 (.branch [.stop]))])), (.pick 3 (.branch [(.pick 7 (.branch [.stop])), (.pick 6 (.branch [.stop])), .stop])), (.pick 3 (.branch [(.pick 7 (.branch [.stop])), (.pick 4 (.branch [.stop])), (.pick 4 (.branch [.stop]))])), (.pick 3 (.branch [(.pick 6 (.branch [.stop])), (.pick 4 (.branch [.stop])), (.pick 4 (.branch [.stop]))])), (.pick 3 (.branch [.stop, (.pick 4 (.branch [.stop])), (.pick 4 (.branch [.stop]))]))])), (.pick 2 (.branch [.stop, (.pick 3 (.branch [(.pick 7 (.branch [.stop])), (.pick 5 (.branch [.stop])), .stop])), (.pick 3 (.branch [(.pick 7 (.branch [.stop])), (.pick 4 (.branch [.stop])), (.pick 4 (.branch [.stop]))])), (.pick 3 (.branch [(.pick 5 (.branch [.stop])), (.pick 4 (.branch [.stop])), .stop])), (.pick 3 (.branch [.stop, (.pick 4 (.branch [.stop])), .stop]))])), (.pick 2 (.branch [(.pick 4 (.branch [(.pick 8 (.branch [.stop])), .stop, (.pick 5 (.branch [.stop]))])), (.pick 3 (.branch [(.pick 6 (.branch [.stop])), (.pick 5 (.branch [.stop])), .stop])), (.pick 3 (.branch [(.pick 6 (.branch [.stop])), (.pick 4 (.branch [.stop])), (.pick 4 (.branch [.stop]))])), (.pick 3 (.branch [(.pick 5 (.branch [.stop])), (.pick 4 (.branch [.stop])), .stop])), (.pick 3 (.branch [.stop, (.pick 4 (.branch [.stop])), .stop]))])), (.pick 2 (.branch [(.pick 5 (.branch [.stop, .stop, (.pick 4 (.branch [.stop]))])), .stop, (.pick 3 (.branch [.stop, (.pick 4 (.branch [.stop])), (.pick 4 (.branch [.stop]))])), (.pick 3 (.branch [.stop, (.pick 4 (.branch [.stop])), .stop])), (.pick 3 (.branch [.stop, (.pick 4 (.branch [.stop])), .stop]))]))])), (.pick 0 (.branch [(.pick 5 (.branch [(.pick 4 (.branch [(.pick 7 (.branch [.stop])), (.pick 6 (.branch [.stop])), (.pick 6 (.branch [.stop]))])), (.pick 3 (.branch [.stop, .stop, (.pick 7 (.branch [.stop]))])), (.pick 3 (.branch [.stop, (.pick 8 (.branch [.stop])), (.pick 7 (.branch [.stop]))])), (.pick 6 (.branch [(.pick 4 (.branch [.stop])), .stop, (.pick 4 (.branch [.stop]))])), (.pick 4 (.branch [(.pick 6 (.branch [.stop])), (.pick 7 (.branch [.stop])), (.pick 6 (.branch [.stop]))]))])), (.pick 2 (.branch [(.pick 5 (.branch [(.pick 7 (.branch [.stop])), .stop, (.pick 6 (.branch [.stop]))])), (.pick 6 (.branch [.stop, (.pick 8 (.branch [.stop])), (.pick 7 (.branch [.stop]))])), (.pick 4 (.branch [(.pick 7 (.branch [.stop])), (.pick 5 (.branch [.stop])), (.pick 5 (.branch [.stop]))])), (.pick 5 (.branch [.stop, (.pick 4 (.branch [.stop])), (.pick 4 (.branch [.stop]))])), (.pick 4 (.branch [(.pick 7 (.branch [.stop])), (.pick 5 (.branch [.stop])), (.pick 5 (.branch [.stop]))]))])), (.pick 2 (.branch [(.pick 5 (.branch [(.pick 7 (.branch [.stop])), .stop, (.pick 6 (.branch [.stop]))])), (.pick 3 (.branch [(.pick 7 (.branch [.stop])), .stop, (.pick 7 (.branch [.stop]))])), (.pick 3 (.branch [(.pick 7 (.branch [.stop])), .stop, (.pick 5 (.branch [.stop]))])), .stop, (.pick 3 (.branch [(.pick 7 (.branch [.stop])), (.pick 5 (.branch [.stop])), .stop]))])), (.pick 2 (.branch [(.pick 6 (.branch [.stop, (.pick 8 (.branch [.stop])), (.pick 7 (.branch [.stop]))])), (.pick 3 (.branch [(.pick 7 (.branch [.stop])), .stop, (.pick 7 (.branch [.stop]))])), (.pick 3 (.branch [(.pick 7 (.branch [.stop])), (.pick 4 (.branch [.stop])), (.pick 4 (.branch [.stop]))])), (.pick 3 (.branch [.stop, (.pick 4 (.branch [.stop])), (.pick 4 (.branch [.stop]))])), (.pick 3 (.branch [(.pick 7 (.branch [.stop])), (.pick 4 (.branch [.stop])), (.pick 4 (.branch [.stop]))]))])), (.pick 2 (.branch [(.pick 4 (.branch [(.pick 7 (.branch [.stop])), (.pick 5 (.branch [.stop])), (.pick 5 (.branch [.stop]))])), (.pick 3 (.branch [(.pick 7 (.branch [.stop])), .stop, (.pick 5 (.branch [.stop]))])), (.pick 3 (.branch [(.pick 7 (.branch [.stop])), (.pick 4 (.branch [.stop])), (.pick 4 (.branch [.stop]))])), (.pick 3 (.branch [.stop, (.pick 4 (.branch [.stop])), .stop])), (.pick 3 (.branch [(.pick 5 (.branch [.stop])), (.pick 4 (.branch [.stop])), .stop]))])), (.pick 2 (.branch [(.pick 5 (.branch [.stop, (.pick 4 (.branch [.stop])), (.pick 4 (.branch [.stop]))])), .stop, (.pick 3 (.branch [.stop, (.pick 4 (.branch [.stop])), (.pick 4 (.branch [.stop]))])), (.pick 3 (.branch [.stop, (.pick 4 (.branch [.stop])), .stop])), (.pick 3 (.branch [.stop, (.pick 4 (.branch [.stop])), .stop]))])), (.pick 2 (.branch [(.pick 4 (.branch [(.pick 7 (.branch [.stop])), (.pick 5 (.branch [.stop])), (.pick 5 (.branch [.stop]))])), (.pick 3 (.branch [(.pick 7 (.branch [.stop])), (.pick 5 (.branch [.stop])), .stop])), (.pick 3 (.branch [(.pick 7 (.branch [.stop])), (.pick 4 (.branch [.stop])), (.pick 4 (.branch [.stop]))])), (.pick 3 (.branch [(.pick 5 (.branch [.stop])), (.pick 4 (.branch [.stop])), .stop])), (.pick 3 (.branch [.stop, (.pick 4 (.branch [.stop])), .stop]))]))])), (.pick 0 (.branch [(.pick 5 (.branch [(.pick 4 (.branch [(.pick 7 (.branch [.stop])), (.pick 6 (.branch [.stop])), (.pick 6 (.branch [.stop]))])), (.pick 3 (.branch [.stop, .stop, (.pick 7 (.branch [.stop]))])), (.pick 3 (.branch [.stop, (.pick 8 (.branch [.stop])), (.pick 7 (.branch [.stop]))])), (.pick 6 (.branch [(.pick 4 (.branch [.stop])), .stop, (.pick 4 (.branch [.stop]))])), (.pick 4 (.branch [(.pick 6 (.branch [.stop])), (.pick 7 (.branch [.stop])), (.pick 6 (.branch [.stop]))]))])), (.pick 1 (.branch [(.pick 5 (.branch [.stop, (.pick 6 (.branch [.stop])), (.pick 6 (.branch [.stop]))])), (.pick 6 (.branch [.stop, (.pick 4 (.branch [.stop])), .stop])), (.pick 5 (.branch [.stop, (.pick 4 (.branch [.stop])), (.pick 4 (.branch [.stop]))])), (.pick 4 (.branch [(.pick 6 (.branch [.stop])), (.pick 5 (.branch [.stop])), (.pick 5 (.branch [.stop]))])), (.pick 4 (.branch [.stop, (.pick 5 (.branch [.stop])), (.pick 5 (.branch [.stop]))]))])), (.pick 1 (.branch [(.pick 5 (.branch [.stop, (.pick 6 (.branch [.stop])), (.pick 6 (.branch [.stop]))])), (.pick 3 (.branch [.stop, (.pick 8 (.branch [.stop])), .stop])), .stop, (.pick 3 (.branch [(.pick 8 (.branch [.stop])), .stop, (.pick 5 (.branch [.stop]))])), (.pick 3 (.branch [.stop, .stop, (.pick 5 (.branch [.stop]))]))])), (.pick 1 (.branch [(.pick 6 (.branch [.stop, (.pick 4 (.branch [.stop])), .stop])), (.pick 3 (.branch [.stop, (.pick 8 (.branch [.stop])), .stop])), (.pick 3 (.branch [.stop, (.pick 4 (.branch [.stop])), .stop])), (.pick 3 (.branch [(.pick 8 (.branch [.stop])), (.pick 4 (.branch [.stop])), .stop])), .stop])), (.pick 1 (.branch [(.pick 5 (.branch [.stop, (.pick 4 (.branch [.stop])), (.pick 4 (.branch [.stop]))])), .stop, (.pick 3 (.branch [.stop, (.pick 4 (.branch [.stop])), .stop])), (.pick 3 (.branch [.stop, (.pick 4 (.branch [.stop])), .stop])), (.pick 3 (.branch [.stop, .stop, .stop]))])), (.pick 1 (.branch [(.pick 4 (.branch [(.pick 6 (.branch [.stop])), (.pick 5 (.branch [.stop])), (.pick 5 (.branch [.stop]))])), (.pick 3 (.branch [(.pick 8 (.branch [.stop])), .stop, (.pick 5 (.branch [.stop]))])), (.pick 3 (.branch [(.pick 8 (.branch [.stop])), (.pick 4 (.branch [.stop])), .stop])), (.pick 3 (.branch [.stop, (.pick 4 (.branch [.stop])), .stop])), (.pick 3 (.branch [(.pick 5 (.branch [.stop])), .stop, .stop]))])), (.pick 1 (.branch [(.pick 4 (.branch [.stop, (.pick 5 (.branch [.stop])), (.pick 5 (.branch [.stop]))])), (.pick 3 (.branch [.stop, .stop, (.pick 5 (.branch [.stop]))])), .stop, (.pick 3 (.branch [.stop, .stop, .stop])), (.pick 3 (.branch [(.pick 5 (.branch [.stop])), .stop, .stop]))]))])), (.pick 0 (.branch [(.pick 2 (.branch [(.pick 5 (.branch [(.pick 7 (.branch [.stop])), .stop, (.pick 6 (.branch [.stop]))])), (.pick 6 (.branch [.stop, (.pick 8 (.branch [.stop])), (.pick 7 (.branch [.stop]))])), (.pick 4 (.branch [(.pick 7 (.branch [.stop])), (.pick 5 (.branch [.stop])), (.pick 5 (.branch [.stop]))])), (.pick 5 (.branch [.stop, (.pick 4 (.branch [.stop])), (.pick 4 (.branch [.stop]))])), (.pick 4 (.branch [(.pick 7 (.branch [.stop])), (.pick 5 (.branch [.stop])), (.pick 5 (.branch [.stop]))]))])), (.pick 1 (.branch [(.pick 5 (.branch [.stop, (.pick 6 (.branch [.stop])), (.pick 6 (.branch [.stop]))])), (.pick 6 (.branch [.stop, (.pick 4 (.branch [.stop])), .stop])), (.pick 5 (.branch [.stop, (.pick 4 (.branch [.stop])), (.pick 4 (.branch [.stop]))])), (.pick 4 (.branch [(.pick 6 (.branch [.stop])), (.pick 5 (.branch [.stop])), (.pick 5 (.branch [.stop]))])), (.pick 4 (.branch [.stop, (.pick 5 (.branch [.stop])), (.pick 5 (.branch [.stop]))]))])), (.pick 1 (.branch [(.pick 5 (.branch [.stop, (.pick 6 (.branch [.stop])), (.pick 6 (.branch [.stop]))])), .stop, (.pick 5 (.branch [.stop, (.pick 8 (.branch [.stop])), (.pick 7 (.branch [.stop]))])), (.pick 5 (.branch [(.pick 6 (.branch [.stop])), (.pick 8 (.branch [.stop])), (.pick 6 (.branch [.stop]))])), (.pick 5 (.branch [(.pick 6 (.branch [.stop])), (.pick 7 (.branch [.stop])), (.pick 6 (.branch [.stop]))]))])), (.pick 6 (.branch [(.pick 2 (.branch [.stop, (.pick 8 (.branch [.stop])), (.pick 7 (.branch [.stop]))])), (.pick 1 (.branch [.stop, (.pick 4 (.branch [.stop])), .stop])), .stop, (.pick 1 (.branch [(.pick 4 (.branch [.stop])), .stop, (.pick 4 (.branch [.stop]))])), (.pick 1 (.branch [.stop, .stop, (.pick 4 (.branch [.stop]))]))])), (.pick 5 (.branch [(.pick 2 (.branch [(.pick 7 (.branch [.stop])), (.pick 4 (.branch [.stop])), (.pick 4 (.branch [.stop]))])), (.pick 1 (.branch [.stop, (.pick 4 (.branch [.stop])), (.pick 4 (.branch [.stop]))])), (.pick 1 (.branch [.stop, (.pick 8 (.branch [.stop])), (.pick 7 (.branch [.stop]))])), (.pick 1 (.branch [(.pick 4 (.branch [.stop])), (.pick 8 (.branch [.stop])), .stop])), (.pick 1 (.branch [(.pick 4 (.branch [.stop])), (.pick 7 (.branch [.stop])), .stop]))])), (.pick 1 (.branch [(.pick 4 (.branch [(.pick 6 (.branch [.stop])), (.pick 5 (.branch [.stop])), (.pick 5 (.branch [.stop]))])), (.pick 5 (.branch [(.pick 6 (.branch [.stop])), (.pick 8 (.branch [.stop])), (.pick 6 (.branch [.stop]))])), (.pick 6 (.branch [(.pick 4 (.branch [.stop])), .stop, (.pick 4 (.branch [.stop]))])), (.pick 5 (.branch [(.pick 4 (.branch [.stop])), (.pick 8 (.branch [.stop])), .stop])), (.pick 4 (.branch [(.pick 5 (.branch [.stop])), (.pick 6 (.branch [.stop])), .stop]))])), (.pick 1 (.branch [(.pick 4 (.branch [.stop, (.pick 5 (.branch [.stop])), (.pick 5 (.branch [.stop]))])), (.pick 5 (.branch [(.pick 6 (.branch [.stop])), (.pick 7 (.branch [.stop])), (.pick 6 (.branch [.stop]))])), (.pick 6 (.branch [.stop, .stop, (.pick 4 (.branch [.stop]))])), (.pick 5 (.branch [(.pick 4 (.branch [.stop])), (.pick 7 (.branch [.stop])), .stop])), (.pick 4 (.branch [(.pick 5 (.branch [.stop])), (.pick 6 (.branch [.stop])), .stop]))]))])), (.pick 0 (.branch [(.pick 2 (.branch [(.pick 5 (.branch [(.pick 7 (.branch [.stop])), .stop, (.pick 6 (.branch [.stop]))])), (.pick 3 (.branch [(.pick 7 (.branch [.stop])), .stop, (.pick 7 (.branch [.stop]))])), (.pick 3 (.branch [(.pick 7 (.branch [.stop])), .stop, (.pick 5 (.branch [.stop]))])), .stop, (.pick 3 (.branch [(.pick 7 (.branch [.stop])), (.pick 5 (.branch [.stop])), .stop]))])), (.pick 1 (.branch [(.pick 5 (.branch [.stop, (.pick 6 (.branch [.stop])), (.pick 6 (.branch [.stop]))])), (.pick 3 (.branch [.stop, (.pick 8 (.branch [.stop])), .stop])), .stop, (.pick 3 (.branch [(.pick 8 (.branch [.stop])), .stop, (.pick 5 (.branch [.stop]))])), (.pick 3 (.branch [.stop, .stop, (.pick 5 (.branch [.stop]))]))])), (.pick 1 (.branch [(.pick 5 (.branch [.stop, (.pick 6 (.branch [.stop])), (.pick 6 (.branch [.stop]))])), .stop, (.pick 5 (.branch [.stop, (.pick 8 (.branch [.stop])), (.pick 7 (.branch [.stop]))])), (.pick 5 (.branch [(.pick 6 (.branch [.stop])), (.pick 8 (.branch [.stop])), (.pick 6 (.branch [.stop]))])), (.pick 5 (.branch [(.pick 6 (.branch [.stop])), (.pick 7 (.branch [.stop])), (.pick 6 (.branch [.stop]))]))])), (.pick 1 (.branch [(.pick 3 (.branch [.stop, (.pick 8 (.branch [.stop])), .stop])), .stop, (.pick 3 (.branch [.stop, (.pick 8 (.branch [.stop])), (.pick 7 (.branch [.stop]))])), (.pick 8 (.branch [(.pick 3 (.branch [.stop])), .stop, (.pick 3 (.branch [.stop]))])), (.pick 7 (.branch [.stop, .stop, (.pick 3 (.branch [.stop]))]))])), (.pick 1 (.branch [.stop, (.pick 5 (.branch [.stop, (.pick 8 (.branch [.stop])), (.pick 7 (.branch [.stop]))])), (.pick 3 (.branch [.stop, (.pick 8 (.branch [.stop])), (.pick 7 (.branch [.stop]))])), (.pick 3 (.branch [.stop, (.pick 8 (.branch [.stop])), .stop])), (.pick 3 (.branch [.stop, (.pick 7 (.branch [.stop])), .stop]))])), (.pick 1 (.branch [(.pick 3 (.branch [(.pick 8 (.branch [.stop])), .stop, (.pick 5 (.branch [.stop]))])), (.pick 5 (.branch [(.pick 6 (.branch [.stop])), (.pick 8 (.branch [.stop])), (.pick 6 (.branch [.stop]))])), (.pick 8 (.branch [(.pick 3 (.branch [.stop])), .stop, (.pick 3 (.branch [.stop]))])), (.pick 3 (.branch [.stop, (.pick 8 (.branch [.stop])), .stop])), (.pick 5 (.branch [(.pick 3 (.branch [.stop])), (.pick 6 (.branch [.stop])), .stop]))])), (.pick 1 (.branch [(.pick 3 (.branch [.stop, .stop, (.pick 5 (.branch [.stop]))])), (.pick 5 (.branch [(.pick 6 (.branch [.stop])), (.pick 7 (.branch [.stop])), (.pick 6 (.branch [.stop]))])), (.pick 7 (.branch [.stop, .stop, (.pick 3 (.branch [.stop]))])), (.pick 3 (.branch [.stop, (.pick 7 (.branch [.stop])), .stop])), (.pick 5 (.branch [(.pick 3 (.branch [.stop])), (.pick 6 (.branch [.stop])), .stop]))]))])), (.pick 0 (.branch [(.pick 2 (.branch [(.pick 6 (.branch [.stop, (.pick 8 (.branch [.stop])), (.pick 7 (.branch [.stop]))])), (.pick 3 (.branch [(.pick 7 (.branch [.stop])), .stop, (.pick 7 (.branch [.stop]))])), (.pick 3 (.branch [(.pick 7 (.branch [.stop])), (.pick 4 (.branch [.stop])), (.pick 4 (.branch [.stop]))])), (.pick 3 (.branch [.stop, (.pick 4 (.branch [.stop])), (.pick 4 (.branch [.stop]))])), (.pick 3 (.branch [(.pick 7 (.branch [.stop])), (.pick 4 (.branch [.stop])), (.pick 4 (.branch [.stop]))]))])), (.pick 1 (.branch [(.pick 6 (.branch [.stop, (.pick 4 (.branch [.stop])), .stop])), (.pick 3 (.branch [.stop, (.pick 8 (.branch [.stop])), .stop])), (.pick 3 (.branch [.stop, (.pick 4 (.branch [.stop])), .stop])), (.pick 3 (.branch [(.pick 8 (.branch [.stop])), (.pick 4 (.branch [.stop])), .stop])), .stop])), (.pick 6 (.branch [(.pick 2 (.branch [.stop, (.pick 8 (.branch [.stop])), (.pick 7 (.branch [.stop]))])), (.pick 1 (.branch [.stop, (.pick 4 (.branch [.stop])), .stop])), .stop, (.pick 1 (.branch [(.pick 4 (.branch [.stop])), .stop, (.pick 4 (.branch [.stop]))])), (.pick 1 (.branch [.stop, .stop, (.pick 4 (.branch [.stop]))]))])), (.pick 1 (.branch [(.pick 3 (.branch [.stop, (.pick 8 (.branch [.stop])), .stop])), .stop, (.pick 3 (.branch [.stop, (.pick 8 (.branch [.stop])), (.pick 7 (.branch [.stop]))])), (.pick 8 (.branch [(.pick 3 (.branch [.stop])), .stop, (.pick 3 (.branch [.stop]))])), (.pick 7 (.branch [.stop, .stop, (.pick 3 (.branch [.stop]))]))])), (.pick 2 (.branch [(.pick 3 (.branch [(.pick 7 (.branch [.stop])), (.pick 4 (.branch [.stop])), (.pick 4 (.branch [.stop]))])), (.pick 7 (.branch [(.pick 4 (.branch [.stop])), .stop, (.pick 4 (.branch [.stop]))])), (.pick 3 (.branch [(.pick 7 (.branch [.stop])), (.pick 8 (.branch [.stop])), (.pick 7 (.branch [.stop]))])), (.pick 3 (.branch [(.pick 4 (.branch [.stop])), (.pick 8 (.branch [.stop])), .stop])), (.pick 3 (.branch [(.pick 4 (.branch [.stop])), (.pick 7 (.branch [.stop])), .stop]))])), (.pick 1 (.branch [(.pick 3 (.branch [(.pick 8 (.branch [.stop])), (.pick 4 (.branch [.stop])), .stop])), (.pick 6 (.branch [(.pick 4 (.branch [.stop])), .stop, (.pick 4 (.branch [.stop]))])), (.pick 8 (.branch [(.pick 3 (.branch [.stop])), .stop, (.pick 3 (.branch [.stop]))])), (.pick 3 (.branch [(.pick 4 (.branch [.stop])), (.pick 8 (.branch [.stop])), .stop])), (.pick 4 (.branch [.stop, (.pick 6 (.branch [.stop])), .stop]))])), (.pick 1 (.branch [.stop, (.pick 6 (.branch [.stop, .stop, (.pick 4 (.branch [.stop]))])), (.pick 7 (.branch [.stop, .stop, (.pick 3 (.branch [.stop]))])), (.pick 3 (.branch [.stop, (.pick 7 (.branch [.stop])), .stop])), (.pick 4 (.branch [.stop, (.pick 6 (.branch [.stop])), .stop]))]))])), (.pick 0 (.branch [(.pick 2 (.branch [(.pick 4 (.branch [(.pick 7 (.branch [.stop])), (.pick 5 (.branch [.stop])), (.pick 5 (.branch [.stop]))])), (.pick 3 (.branch [(.pick 7 (.branch [.stop])), .stop, (.pick 5 (.branch [.stop]))])), (.pick 3 (.branch [(.pick 7 (.branch [.stop])), (.pick 4 (.branch [.stop])), (.pick 4 (.branch [.stop]))])), (.pick 3 (.branch [.stop, (.pick 4 (.branch [.stop])), .stop])), (.pick 3 (.branch [(.pick 5 (.branch [.stop])), (.pick 4 (.branch [.stop])), .stop]))])), (.pick 1 (.branch [(.pick 5 (.branch [.stop, (.pick 4 (.branch [.stop])), (.pick 4 (.branch [.stop]))])), .stop, (.pick 3 (.branch [.stop, (.pick 4 (.branch [.stop])), .stop])), (.pick 3 (.branch [.stop, (.pick 4 (.branch [.stop])), .stop])), (.pick 3 (.branch [.stop, .stop, .stop]))])), (.pick 5 (.branch [(.pick 2 (.branch [(.pick 7 (.branch [.stop])), (.pick 4 (.branch [.stop])), (.pick 4 (.branch [.stop]))])), (.pick 1 (.branch [.stop, (.pick 4 (.branch [.stop])), (.pick 4 (.branch [.stop]))])), (.pick 1 (.branch [.stop, (.pick 8 (.branch [.stop])), (.pick 7 (.branch [.stop]))])), (.pick 1 (.branch [(.pick 4 (.branch [.stop])), (.pick 8 (.branch [.stop])), .stop])), (.pick 1 (.branch [(.pick 4 (.branch [.stop])), (.pick 7 (.branch [.stop])), .stop]))])), (.pick 1 (.branch [.stop, (.pick 5 (.branch [.stop, (.pick 8 (.branch [.stop])), (.pick 7 (.branch [.stop]))])), (.pick 3 (.branch [.stop, (.pick 8 (.branch [.stop])), (.pick 7 (.branch [.stop]))])), (.pick 3 (.branch [.stop, (.pick 8 (.branch [.stop])), .stop])), (.pick 3 (.branch [.stop, (.pick 7 (.branch [.stop])), .stop]))])), (.pick 2 (.branch [(.pick 3 (.branch [(.pick 7 (.branch [.stop])), (.pick 4 (.branch [.stop])), (.pick 4 (.branch [.stop]))])), (.pick 7 (.branch [(.pick 4 (.branch [.stop])), .stop, (.pick 4 (.branch [.stop]))])), (.pick 3 (.branch [(.pick 7 (.branch [.stop])), (.pick 8 (.branch [.stop])), (.pick 7 (.branch [.stop]))])), (.pick 3 (.branch [(.pick 4 (.branch [.stop])), (.pick 8 (.branch [.stop])), .stop])), (.pick 3 (.branch [(.pick 4 (.branch [.stop])), (.pick 7 (.branch [.stop])), .stop]))])), (.pick 1 (.branch [(.pick 3 (.branch [.stop, (.pick 4 (.branch [.stop])), .stop])), (.pick 5 (.branch [(.pick 4 (.branch [.stop])), (.pick 8 (.branch [.stop])), .stop])), (.pick 3 (.branch [.stop, (.pick 8 (.branch [.stop])), .stop])), (.pick 3 (.branch [(.pick 4 (.branch [.stop])), (.pick 8 (.branch [.stop])), .stop])), .stop])), (.pick 1 (.branch [(.pick 3 (.branch [.stop, .stop, .stop])), (.pick 5 (.branch [(.pick 4 (.branch [.stop])), (.pick 7 (.branch [.stop])), .stop])), (.pick 3 (.branch [.stop, (.pick 7 (.branch [.stop])), .stop])), (.pick 3 (.branch [.stop, (.pick 7 (.branch [.stop])), .stop])), .stop]))])), (.pick 0 (.branch [(.pick 2 (.branch [(.pick 5 (.branch [.stop, (.pick 4 (.branch [.stop])), (.pick 4 (.branch [.stop]))])), .stop, (.pick 3 (.branch [.stop, (.pick 4 (.branch [.stop])), (.pick 4 (.branch [.stop]))])), (.pick 3 (.branch [.stop, (.pick 4 (.branch [.stop])), .stop])), (.pick 3 (.branch [.stop, (.pick 4 (.branch [.stop])), .stop]))])), (.pick 1 (.branch [(.pick 4 (.branch [(.pick 6 (.branch [.stop])), (.pick 5 (.branch [.stop])), (.pick 5 (.branch [.stop]))])), (.pick 3 (.branch [(.pick 8 (.branch [.stop])), .stop, (.pick 5 (.branch [.stop]))])), (.pick 3 (.branch [(.pick 8 (.branch [.stop])), (.pick 4 (.branch [.stop])), .stop])), (.pick 3 (.branch [.stop, (.pick 4 (.branch [.stop])), .stop])), (.pick 3 (.branch [(.pick 5 (.branch [.stop])), .stop, .stop]))])), (.pick 1 (.branch [(.pick 4 (.branch [(.pick 6 (.branch [.stop])), (.pick 5 (.branch [.stop])), (.pick 5 (.branch [.stop]))])), (.pick 5 (.branch [(.pick 6 (.branch [.stop])), (.pick 8 (.branch [.stop])), (.pick 6 (.branch [.stop]))])), (.pick 6 (.branch [(.pick 4 (.branch [.stop])), .stop, (.pick 4 (.branch [.stop]))])), (.pick 5 (.branch [(.pick 4 (.branch [.stop])), (.pick 8 (.branch [.stop])), .stop])), (.pick 4 (.branch [(.pick 5 (.branch [.stop])), (.pick 6 (.branch [.stop])), .stop]))])), (.pick 1 (.branch [(.pick 3 (.branch [(.pick 8 (.branch [.stop])), .stop, (.pick 5 (.branch [.stop]))])), (.pick 5 (.branch [(.pick 6 (.branch [.stop])), (.pick 8 (.branch [.stop])), (.pick 6 (.branch [.stop]))])), (.pick 8 (.branch [(.pick 3 (.branch [.stop])), .stop, (.pick 3 (.branch [.stop]))])), (.pick 3 (.branch [.stop, (.pick 8 (.branch [.stop])), .stop])), (.pick 5 (.branch [(.pick 3 (.branch [.stop])), (.pick 6 (.branch [.stop])), .stop]))])), (.pick 1 (.branch [(.pick 3 (.branch [(.pick 8 (.branch [.stop])), (.pick 4 (.branch [.stop])), .stop])), (.pick 6 (.branch [(.pick 4 (.branch [.stop])), .stop, (.pick 4 (.branch [.stop]))])), (.pick 8 (.branch [(.pick 3 (.branch [.stop])), .stop, (.pick 3 (.branch [.stop]))])), (.pick 3 (.branch [(.pick 4 (.branch [.stop])), (.pick 8 (.branch [.stop])), .stop])), (.pick 4 (.branch [.stop, (.pick 6 (.branch [.stop])), .stop]))])), (.pick 1 (.branch [(.pick 3 (.branch [.stop, (.pick 4 (.branch [.stop])), .stop])), (.pick 5 (.branch [(.pick 4 (.branch [.stop])), (.pick 8 (.branch [.stop])), .stop])), (.pick 3 (.branch [.stop, (.pick 8 (.branch [.stop])), .stop])), (.pick 3 (.branch [(.pick 4 (.branch [.stop])), (.pick 8 (.branch [.stop])), .stop])), .stop])), (.pick 1 (.branch [(.pick 3 (.branch [(.pick 5 (.branch [.stop])), .stop, .stop])), (.pick 4 (.branch [(.pick 5 (.branch [.stop])), (.pick 6 (.branch [.stop])), .stop])), (.pick 5 (.branch [(.pick 3 (.branch [.stop])), (.pick 6 (.branch [.stop])), .stop])), (.pick 4 (.branch [.stop, (.pick 6 (.branch [.stop])), .stop])), .stop]))])), (.pick 0 (.branch [(.pick 2 (.branch [(.pick 4 (.branch [(.pick 7 (.branch [.stop])), (.pick 5 (.branch [.stop])), (.pick 5 (.branch [.stop]))])), (.pick 3 (.branch [(.pick 7 (.branch [.stop])), (.pick 5 (.branch [.stop])), .stop])), (.pick 3 (.branch [(.pick 7 (.branch [.stop])), (.pick 4 (.branch [.stop])), (.pick 4 (.branch [.stop]))])), (.pick 3 (.branch [(.pick 5 (.branch [.stop])), (.pick 4 (.branch [.stop])), .stop])), (.pick 3 (.branch [.stop, (.pick 4 (.branch [.stop])), .stop]))])), (.pick 1 (.branch [(.pick 4 (.branch [.stop, (.pick 5 (.branch [.stop])), (.pick 5 (.branch [.stop]))])), (.pick 3 (.branch [.stop, .stop, (.pick 5 (.branch [.stop]))])), .stop, (.pick 3 (.branch [.stop, .stop, .stop])), (.pick 3 (.branch [(.pick 5 (.branch [.stop])), .stop, .stop]))])), (.pick 1 (.branch [(.pick 4 (.branch [.stop, (.pick 5 (.branch [.stop])), (.pick 5 (.branch [.stop]))])), (.pick 5 (.branch [(.pick 6 (.branch [.stop])), (.pick 7 (.branch [.stop])), (.pick 6 (.branch [.stop]))])), (.pick 6 (.branch [.stop, .stop, (.pick 4 (.branch [.stop]))])), (.pick 5 (.branch [(.pick 4 (.branch [.stop])), (.pick 7 (.branch [.stop])), .stop])), (.pick 4 (.branch [(.pick 5 (.branch [.stop])), (.pick 6 (.branch [.stop])), .stop]))])), (.pick 1 (.branch [(.pick 3 (.branch [.stop, .stop, (.pick 5 (.branch [.stop]))])), (.pick 5 (.branch [(.pick 6 (.branch [.stop])), (.pick 7 (.branch [.stop])), (.pick 6 (.branch [.stop]))])), (.pick 7 (.branch [.stop, .stop, (.pick 3 (.branch [.stop]))])), (.pick 3 (.branch [.stop, (.pick 7 (.branch [.stop])), .stop])), (.pick 5 (.branch [(.pick 3 (.branch [.stop])), (.pick 6 (.branch [.stop])), .stop]))])), (.pick 1 (.branch [.stop, (.pick 6 (.branch [.stop, .stop, (.pick 4 (.branch [.stop]))])), (.pick 7 (.branch [.stop, .stop, (.pick 3 (.branch [.stop]))])), (.pick 3 (.branch [.stop, (.pick 7 (.branch [.stop])), .stop])), (.pick 4 (.branch [.stop, (.pick 6 (.branch [.stop])), .stop]))])), (.pick 1 (.branch [(.pick 3 (.branch [.stop, .stop, .stop])), (.pick 5 (.branch [(.pick 4 (.branch [.stop])), (.pick 7 (.branch [.stop])), .stop])), (.pick 3 (.branch [.stop, (.pick 7 (.branch [.stop])), .stop])), (.pick 3 (.branch [.stop, (.pick 7 (.branch [.stop])), .stop])), .stop])), (.pick 1 (.branch [(.pick 3 (.branch [(.pick 5 (.branch [.stop])), .stop, .stop])), (.pick 4 (.branch [(.pick 5 (.branch [.stop])), (.pick 6 (.branch [.stop])), .stop])), (.pick 5 (.branch [(.pick 3 (.branch [.stop])), (.pick 6 (.branch [.stop])), .stop])), (.pick 4 (.branch [.stop, (.pick 6 (.branch [.stop])), .stop])), .stop]))]))])

/-- A state with player one about to win: x at 0, o at 3, x at 1,
o at 4, then x at 2 completes the line `[0,1,2]` (5 moves made). -/
def gWin1 : GameState :=
  add_move_ok (add_move_ok (add_move_ok (add_move_ok (add_move_ok init 0) 3) 1) 4) 2

/-- A state with one `x` at cell 0 (one move made); cell 0 is occupied. -/
def gOcc : GameState := add_move_ok init 0

/-- Bitmask mirror of `check_win`: bit `i` of `p1` (resp. `p2`) set
means `i` is in `playerOneMoves` (resp. `playerTwoMoves`); `n` is the
number of moves made.  Same loop, same combos, same accumulator. -/
def fcheck (p1 p2 n : Nat) : Int × Bool :=
  winningCombos.foldl (fun acc combo =>
    if combo.all (fun i => p1.testBit i) then ((PLAYER_ONE : Int), true)
    else if combo.all (fun i => p2.testBit i) then ((PLAYER_TWO : Int), true)
    else acc) ((-1 : Int), n == 9)

/-- Bitmask mirror of `get_available_moves`: the indices below 9 whose
bit is clear in both masks, ascending. -/
def favail (p1 p2 : Nat) : List Nat :=
  (List.range 9).filter (fun i => !((p1 ||| p2).testBit i))

/-- `certBound` transported to the bitmask mirror of the state (used
so that the large certificate checks evaluate cheaply inside the
kernel; `fastCertBound_eq` proves it equal to `certBound` whenever
the masks mirror the state). -/
def fastCertBound : Nat → Bool → Int → Cert → Nat → Nat → Nat → Nat → Bool → Bool
  | 0, _, _, _, _, _, _, _, _ => false
  | fuel+1, lower, b, c, p1, p2, t, n, m =>
    let wo := fcheck p1 p2 n
    if wo.2 then
      let score : Int :=
        if wo.1 = (PLAYER_ONE : Int) then (n : Int) - 10
        else if wo.1 = (PLAYER_TWO : Int) then 10 - (n : Int)
        else 0
      if lower then decide (b ≤ score) else decide (score ≤ b)
    else
      match c with
      | .stop => false
      | .pick i c' =>
        (m == lower) && (favail p1 p2).contains i &&
          fastCertBound fuel lower b c'
            (if t = PLAYER_ONE then p1 ||| 2 ^ i else p1)
            (if t = PLAYER_ONE then p2 else p2 ||| 2 ^ i)
            ((t + 1) % 2) (n + 1) (!m)
      | .branch cs =>
        (m != lower) && (cs.length == (favail p1 p2).length) &&
          !(cs.length == 0) &&
          ((cs.zip (favail p1 p2)).all (fun p =>
            fastCertBound fuel lower b p.1
              (if t = PLAYER_ONE then p1 ||| 2 ^ p.2 else p1)
              (if t = PLAYER_ONE then p2 else p2 ||| 2 ^ p.2)
              ((t + 1) % 2) (n + 1) (!m)))

/-- The masks `p1`, `p2` mirror the state `g`: bits below 9 record
exactly the two move lists and, equivalently, the marks on the board;
`n` is the move count and `t` the player to move. -/
def MaskRel (g : GameState) (p1 p2 t n : Nat) : Prop :=
  g.currentBoard.length = 9 ∧
  (∀ i, i ∈ g.playerOneMoves ↔ p1.testBit i = true) ∧
  (∀ i, i ∈ g.playerTwoMoves ↔ p2.testBit i = true) ∧
  (∀ i, i < 9 →
    ((g.currentBoard.getD i Cell.empty = Cell.x ↔ p1.testBit i = true) ∧
     (g.currentBoard.getD i Cell.empty = Cell.o ↔ p2.testBit i = true))) ∧
  p1 < 512 ∧ p2 < 512 ∧ g.allMoves.length = n ∧ g.currentPlayer = t

/-! ### List helpers -/

lemma getD_set_self {α : Type} (l : List α) (i : Nat) (v d : α)
    (h : i < l.length) : (l.set i v).getD i d = v := by
  rw [List.getD_eq_getElem?_getD, List.getElem?_set_self h]
  rfl

lemma getD_set_ne {α : Type} (l : List α) {i j : Nat} (v d : α)
    (h : i ≠ j) : (l.set i v).getD j d = l.getD j d := by
  rw [List.getD_eq_getElem?_getD, List.getElem?_set_ne h,
    ← List.getD_eq_getElem?_getD]

lemma cell_beq_iff {a b : Cell} : (a == b) = true ↔ a = b := by
  cases a <;> cases b <;> decide

/-- The index/value comprehension of `get_available_moves`, rephrased
as a filter over index ranges. -/
lemma enumFrom_avail (l : List Cell) (n : Nat) :
    ((l.enumFrom n).filter (fun p => p.2 == Cell.empty)).map Prod.fst
      = ((List.range l.length).filter
          (fun k => l.getD k Cell.empty == Cell.empty)).map (fun k => n + k) := by
  induction l generalizing n with
  | nil => simp
  | cons a t ih =>
    have htail :
        ((t.enumFrom (n + 1)).filter (fun p => p.2 == Cell.empty)).map Prod.fst
          = (((List.range t.length).map Nat.succ).filter
              (fun k => (a :: t).getD k Cell.empty == Cell.empty)).map
                (fun k => n + k) := by
      rw [List.filter_map]
      simp only [Function.comp, List.getD_cons_succ, List.map_map]
      rw [ih (n + 1)]
      exact (List.map_congr_left (fun k _ => by
        simp only [Function.comp_apply, Nat.succ_eq_add_one]; omega))
    simp only [List.enumFrom_cons, List.length_cons, List.range_succ_eq_map,
      List.filter_cons, List.getD_cons_zero]
    by_cases ha : (a == Cell.empty) = true
    · simp only [ha, if_true, List.map_cons, Nat.add_zero, htail]
    · simp only [ha, if_false, htail, Bool.false_eq_true]

lemma get_available_moves_eq (g : GameState) :
    get_available_moves g
      = (List.range g.currentBoard.length).filter
          (fun k => g.currentBoard.getD k Cell.empty == Cell.empty) := by
  have h := enumFrom_avail g.currentBoard 0
  simpa [get_available_moves, List.enum] using h

lemma mem_get_available_moves {g : GameState} {i : Nat} :
    i ∈ get_available_moves g ↔
      i < g.currentBoard.length ∧ g.currentBoard.getD i Cell.empty = Cell.empty := by
  rw [get_available_moves_eq]
  simp [List.mem_filter, List.mem_range, cell_beq_iff]

lemma length_filter_update {p q : Nat → Bool} (l : List Nat) (i : Nat)
    (hl : l.Nodup) (hi : i ∈ l) (hp : p i = true) (hq : q i = false)
    (hpq : ∀ j ∈ l, j ≠ i → p j = q j) :
    (l.filter q).length + 1 = (l.filter p).length := by
  induction l with
  | nil => cases hi
  | cons a t ih =>
    rcases List.nodup_cons.mp hl with ⟨hna, hnd⟩
    rcases List.mem_cons.mp hi with rfl | hit
    · rw [List.filter_cons_of_pos hp, List.filter_cons_of_neg (by simp [hq])]
      have heq : t.filter q = t.filter p :=
        List.filter_congr (fun j hj => ((hpq j (List.mem_cons_of_mem _ hj)
          (fun h => hna (h ▸ hj))).symm))
      simp [heq]
    · have hne : a ≠ i := fun h => hna (h ▸ hit)
      have hqa : q a = p a := (hpq a (List.mem_cons_self a t) hne).symm
      have ih' := ih hnd hit (fun j hj hji => hpq j (List.mem_cons_of_mem _ hj) hji)
      by_cases hpa : p a = true
      · rw [List.filter_cons_of_pos hpa, List.filter_cons_of_pos (by rw [hqa]; exact hpa)]
        simp only [List.length_cons]
        omega
      · have hpa' : p a = false := by simpa using hpa
        rw [List.filter_cons_of_neg (by rw [Bool.not_eq_true, hqa]; exact hpa'),
          List.filter_cons_of_neg (by simp [hpa'])]
        exact ih'

/-! ### Components of `add_move` -/

lemma add_move_symbol_ne_empty (g : GameState) : add_move_symbol g ≠ Cell.empty := by
  unfold add_move_symbol
  split <;> simp

lemma add_move_ok_board (g : GameState) (i : Nat) :
    (add_move_ok g i).currentBoard = g.currentBoard.set i (add_move_symbol g) := by
  unfold add_move_ok add_move_hist
  by_cases h : g.currentPlayer = PLAYER_ONE <;> simp [h]

lemma add_move_ok_allMoves (g : GameState) (i : Nat) :
    (add_move_ok g i).allMoves = g.allMoves ++ [i] := by
  unfold add_move_ok add_move_hist
  by_cases h : g.currentPlayer = PLAYER_ONE <;> simp [h]

lemma add_move_ok_player (g : GameState) (i : Nat) :
    (add_move_ok g i).currentPlayer = (g.currentPlayer + 1) % 2 := by
  unfold add_move_ok add_move_hist
  by_cases h : g.currentPlayer = PLAYER_ONE <;> simp [h]

lemma add_move_ok_p1 (g : GameState) (i : Nat) :
    (add_move_ok g i).playerOneMoves
      = if g.currentPlayer = PLAYER_ONE then g.playerOneMoves ++ [i]
        else g.playerOneMoves := by
  unfold add_move_ok add_move_hist
  by_cases h : g.currentPlayer = PLAYER_ONE <;> simp [h]

lemma add_move_ok_p2 (g : GameState) (i : Nat) :
    (add_move_ok g i).playerTwoMoves
      = if g.currentPlayer = PLAYER_ONE then g.playerTwoMoves
        else g.playerTwoMoves ++ [i] := by
  unfold add_move_ok add_move_hist
  by_cases h : g.currentPlayer = PLAYER_ONE <;> simp [h]

lemma add_move_eq_ok_of_mem_avail {g : GameState} {i : Nat}
    (hi : i ∈ get_available_moves g) :
    add_move g i = Except.ok (add_move_ok g i) := by
  have h := (mem_get_available_moves.mp hi).1
  simp [add_move, h]

/-! ### `get_available_moves` across a move -/

lemma avail_length_add_move {g : GameState} {i : Nat}
    (hi : i ∈ get_available_moves g) :
    (get_available_moves (add_move_ok g i)).length + 1
      = (get_available_moves g).length := by
  obtain ⟨hlt, hemp⟩ := mem_get_available_moves.mp hi
  rw [get_available_moves_eq, get_available_moves_eq, add_move_ok_board,
    List.length_set]
  refine length_filter_update (List.range g.currentBoard.length) i
    (List.nodup_range _) (List.mem_range.mpr hlt)
    (by rw [cell_beq_iff]; exact hemp) ?_ ?_
  · rw [getD_set_self _ _ _ _ hlt]
    exact Bool.eq_false_iff.mpr
      (fun hc => add_move_symbol_ne_empty g (cell_beq_iff.mp hc))
  · exact fun j _ hji => by rw [getD_set_ne _ _ _ (fun h => hji h.symm)]

lemma avail_add_move_subset {g : GameState} {i j : Nat}
    (hi : i ∈ get_available_moves g)
    (hj : j ∈ get_available_moves (add_move_ok g i)) :
    j ∈ get_available_moves g := by
  obtain ⟨hilt, _⟩ := mem_get_available_moves.mp hi
  obtain ⟨hjlt, hje⟩ := mem_get_available_moves.mp hj
  rw [add_move_ok_board, List.length_set] at hjlt
  rw [add_move_ok_board] at hje
  rcases eq_or_ne i j with rfl | hne
  · rw [getD_set_self _ _ _ _ hilt] at hje
    exact absurd hje (add_move_symbol_ne_empty g)
  · rw [getD_set_ne _ _ _ hne] at hje
    exact mem_get_available_moves.mpr ⟨hjlt, hje⟩

/-! ### `check_win` -/

lemma check_win_step_over (g : GameState) :
    ∀ (combos : List (List Nat)) (acc : Int × Bool), acc.2 = true →
      (combos.foldl (check_win_step g) acc).2 = true := by
  intro combos
  induction combos with
  | nil => exact fun _ h => h
  | cons c rest ih =>
    intro acc h
    refine ih _ ?_
    unfold check_win_step
    split
    · rfl
    · split
      · rfl
      · exact h

lemma check_win_over_of_full {g : GameState} (h : g.allMoves.length = 9) :
    (check_win g).2 = true := by
  unfold check_win
  exact check_win_step_over g winningCombos _ (by simp [h])

lemma wf_add_move {g : GameState} {i : Nat} (hw : WellFormed g)
    (hi : i ∈ get_available_moves g) : WellFormed (add_move_ok g i) := by
  obtain ⟨hb, hc⟩ := hw
  refine ⟨by rw [add_move_ok_board, List.length_set]; exact hb, ?_⟩
  rw [add_move_ok_allMoves, List.length_append]
  have h := avail_length_add_move hi
  simp only [List.length_cons, List.length_nil]
  omega

lemma avail_ne_nil_of_not_over {g : GameState} (hw : WellFormed g)
    (hno : (check_win g).2 = false) : get_available_moves g ≠ [] := by
  intro hnil
  have h9 : g.allMoves.length = 9 := by
    have h := hw.2
    rw [hnil] at h
    simpa using h
  rw [check_win_over_of_full h9] at hno
  cases hno

/-! ### Unfolding `minimaxFuel` -/

lemma deepcopy_eq (g : GameState) : deepcopy g = g := rfl

lemma minimaxFuel_self (fuel : Nat) (g : GameState) (m : Bool) :
    (minimaxFuel fuel g m).2 = g := by
  cases fuel with
  | zero => rfl
  | succ fuel =>
    simp only [minimaxFuel]
    split <;> rfl

lemma minimaxFuel_succ_over {g : GameState} (fuel : Nat) (m : Bool)
    (h : (check_win g).2 = true) :
    minimaxFuel (fuel+1) g m = (minimaxBase (check_win g).1 g, g) := by
  simp only [minimaxFuel, h, if_true]

lemma minimaxFuel_succ_not_over {g : GameState} (fuel : Nat) (m : Bool)
    (h : (check_win g).2 = false) :
    minimaxFuel (fuel+1) g m
      = (minimaxCombine m
          ((get_available_moves g).map (fun i =>
            if m then i else (minimaxFuel fuel (add_move_ok g i) (!m)).1.1))
          ((get_available_moves g).map (fun i =>
            (minimaxFuel fuel (add_move_ok g i) (!m)).1.2)), g) := by
  simp only [minimaxFuel, h, Bool.false_eq_true, if_false, deepcopy_eq,
    List.map_map]
  rfl

lemma minimaxCombine_snd (m : Bool) (moves : List Nat) (scores : List Int) :
    (minimaxCombine m moves scores).2
      = (match scores with
         | [] => 0
         | s0 :: rest => if m then rest.foldl max s0 else rest.foldl min s0) := by
  unfold minimaxCombine
  cases scores <;> rfl

/-! ### Folded maxima and minima -/

lemma foldl_max_init (l : List Int) (a : Int) : a ≤ l.foldl max a := by
  induction l generalizing a with
  | nil => exact le_refl a
  | cons b t ih => exact le_trans (le_max_left a b) (ih (max a b))

lemma foldl_max_of_mem {l : List Int} {x : Int} (a : Int) (hx : x ∈ l) :
    x ≤ l.foldl max a := by
  induction l generalizing a with
  | nil => cases hx
  | cons b t ih =>
    rcases List.mem_cons.mp hx with rfl | h
    · exact le_trans (le_max_right a x) (foldl_max_init t (max a x))
    · exact ih (max a b) h

lemma foldl_max_le {l : List Int} {a b : Int} (ha : a ≤ b)
    (hl : ∀ x ∈ l, x ≤ b) : l.foldl max a ≤ b := by
  induction l generalizing a with
  | nil => exact ha
  | cons c t ih =>
    exact ih (max_le ha (hl c (List.mem_cons_self c t)))
      (fun x hx => hl x (List.mem_cons_of_mem _ hx))

lemma foldl_max_mem (l : List Int) (a : Int) :
    l.foldl max a = a ∨ l.foldl max a ∈ l := by
  induction l generalizing a with
  | nil => exact Or.inl rfl
  | cons b t ih =>
    rcases ih (max a b) with h | h
    · rcases max_choice a b with hc | hc
      · exact Or.inl (h.trans hc)
      · exact Or.inr (List.mem_cons.mpr (Or.inl (h.trans hc)))
    · exact Or.inr (List.mem_cons_of_mem _ h)

lemma foldl_min_init (l : List Int) (a : Int) : l.foldl min a ≤ a := by
  induction l generalizing a with
  | nil => exact le_refl a
  | cons b t ih => exact le_trans (ih (min a b)) (min_le_left a b)

lemma foldl_min_of_mem {l : List Int} {x : Int} (a : Int) (hx : x ∈ l) :
    l.foldl min a ≤ x := by
  induction l generalizing a with
  | nil => cases hx
  | cons b t ih =>
    rcases List.mem_cons.mp hx with rfl | h
    · exact le_trans (foldl_min_init t (min a x)) (min_le_right a x)
    · exact ih (min a b) h

lemma le_foldl_min {l : List Int} {a b : Int} (ha : b ≤ a)
    (hl : ∀ x ∈ l, b ≤ x) : b ≤ l.foldl min a := by
  induction l generalizing a with
  | nil => exact ha
  | cons c t ih =>
    exact ih (le_min ha (hl c (List.mem_cons_self c t)))
      (fun x hx => hl x (List.mem_cons_of_mem _ hx))

lemma foldl_min_mem (l : List Int) (a : Int) :
    l.foldl min a = a ∨ l.foldl min a ∈ l := by
  induction l generalizing a with
  | nil => exact Or.inl rfl
  | cons b t ih =>
    rcases ih (min a b) with h | h
    · rcases min_choice a b with hc | hc
      · exact Or.inl (h.trans hc)
      · exact Or.inr (List.mem_cons.mpr (Or.inl (h.trans hc)))
    · exact Or.inr (List.mem_cons_of_mem _ h)

/-! ### The move returned by `minimax` is an available move -/

lemma minimaxCombine_fst_mem {m : Bool} {moves : List Nat}
    {scores : List Int} (hne : scores ≠ [])
    (hlen : moves.length = scores.length) :
    (minimaxCombine m moves scores).1 ∈ moves := by
  match scores, hne with
  | s0 :: rest, _ =>
    have hmem : (if m then rest.foldl max s0 else rest.foldl min s0)
        ∈ s0 :: rest := by
      cases m with
      | false =>
        show rest.foldl min s0 ∈ s0 :: rest
        rcases foldl_min_mem rest s0 with h | h
        · rw [h]; exact List.mem_cons_self _ _
        · exact List.mem_cons_of_mem _ h
      | true =>
        show rest.foldl max s0 ∈ s0 :: rest
        rcases foldl_max_mem rest s0 with h | h
        · rw [h]; exact List.mem_cons_self _ _
        · exact List.mem_cons_of_mem _ h
    have hidx : (s0 :: rest).indexOf
        (if m then rest.foldl max s0 else rest.foldl min s0)
        < (s0 :: rest).length := List.indexOf_lt_length.mpr hmem
    have hidx' : (s0 :: rest).indexOf
        (if m then rest.foldl max s0 else rest.foldl min s0)
        < moves.length := by rw [hlen]; exact hidx
    show moves.getD ((s0 :: rest).indexOf
      (if m then rest.foldl max s0 else rest.foldl min s0)) 0 ∈ moves
    rw [List.getD_eq_getElem?_getD, List.getElem?_eq_getElem hidx']
    exact List.getElem_mem hidx'

lemma minimaxFuel_move_mem : ∀ (fuel : Nat) (g : GameState) (m : Bool),
    WellFormed g → (check_win g).2 = false →
    (get_available_moves g).length < fuel →
    (minimaxFuel fuel g m).1.1 ∈ get_available_moves g := by
  intro fuel
  induction fuel with
  | zero => exact fun g m _ _ h => absurd h (by omega)
  | succ fuel ih =>
    intro g m hw hno hlt
    rw [minimaxFuel_succ_not_over fuel m hno]
    have havne : get_available_moves g ≠ [] := avail_ne_nil_of_not_over hw hno
    have hmoves : ∀ x ∈ (get_available_moves g).map (fun i =>
        if m then i else (minimaxFuel fuel (add_move_ok g i) (!m)).1.1),
        x ∈ get_available_moves g := by
      intro x hx
      obtain ⟨i, hi, rfl⟩ := List.mem_map.mp hx
      by_cases hm : m = true
      · simpa [hm] using hi
      · have hm' : m = false := Bool.eq_false_iff.mpr hm
        subst hm'
        simp only [Bool.false_eq_true, if_false, Bool.not_false]
        by_cases hov : (check_win (add_move_ok g i)).2 = true
        · cases fuel with
          | zero =>
            exfalso
            have h1 : 0 < (get_available_moves g).length :=
              List.length_pos.mpr havne
            omega
          | succ fuel' =>
            rw [minimaxFuel_succ_over fuel' true hov]
            unfold minimaxBase
            rw [add_move_ok_allMoves]
            simpa [List.getLast?_concat] using hi
        · have hov' : (check_win (add_move_ok g i)).2 = false := by
            simpa using hov
          have hlt' : (get_available_moves (add_move_ok g i)).length < fuel := by
            have h := avail_length_add_move hi
            omega
          exact avail_add_move_subset hi
            (ih (add_move_ok g i) true (wf_add_move hw hi) hov' hlt')
    refine hmoves _ (minimaxCombine_fst_mem ?_ ?_)
    · intro hnil
      exact havne (List.map_eq_nil_iff.mp hnil)
    · simp [List.length_map]

/-! ### Fuel irrelevance of `minimaxFuel` -/

lemma minimaxFuel_congr : ∀ (n f f' : Nat) (g : GameState) (m : Bool),
    (get_available_moves g).length ≤ n →
    (get_available_moves g).length < f →
    (get_available_moves g).length < f' →
    minimaxFuel f g m = minimaxFuel f' g m := by
  intro n
  induction n with
  | zero =>
    intro f f' g m hn hf hf'
    match f, hf with
    | f+1, _ =>
    match f', hf' with
    | f'+1, _ =>
    by_cases hov : (check_win g).2 = true
    · rw [minimaxFuel_succ_over f m hov, minimaxFuel_succ_over f' m hov]
    · have hovf : (check_win g).2 = false := by simpa using hov
      rw [minimaxFuel_succ_not_over f m hovf,
        minimaxFuel_succ_not_over f' m hovf]
      have hnil : get_available_moves g = [] := List.length_eq_zero.mp (by omega)
      rw [hnil]
      simp
  | succ n ihn =>
    intro f f' g m hn hf hf'
    match f, hf with
    | f+1, _ =>
    match f', hf' with
    | f'+1, _ =>
    by_cases hov : (check_win g).2 = true
    · rw [minimaxFuel_succ_over f m hov, minimaxFuel_succ_over f' m hov]
    · have hovf : (check_win g).2 = false := by simpa using hov
      rw [minimaxFuel_succ_not_over f m hovf,
        minimaxFuel_succ_not_over f' m hovf]
      have hchild : ∀ i ∈ get_available_moves g,
          minimaxFuel f (add_move_ok g i) (!m)
            = minimaxFuel f' (add_move_ok g i) (!m) := by
        intro i hi
        have hdec := avail_length_add_move hi
        have h1 : 0 < (get_available_moves g).length :=
          List.length_pos.mpr (by intro hnl; rw [hnl] at hi; cases hi)
        exact ihn f f' _ (!m) (by omega) (by omega) (by omega)
      rw [List.map_congr_left (fun i hi => by rw [hchild i hi]),
        List.map_congr_left
          (fun i hi => (by rw [hchild i hi] :
            (minimaxFuel f (add_move_ok g i) (!m)).1.2
              = (minimaxFuel f' (add_move_ok g i) (!m)).1.2))]

/-! ### Soundness of the certificate checker -/

lemma minimaxFuel_snd_not_over {g : GameState} (fuel : Nat) (m : Bool)
    (h : (check_win g).2 = false) :
    (minimaxFuel (fuel+1) g m).1.2
      = (match (get_available_moves g).map (fun i =>
            (minimaxFuel fuel (add_move_ok g i) (!m)).1.2) with
         | [] => 0
         | s0 :: rest => if m then rest.foldl max s0 else rest.foldl min s0) := by
  rw [minimaxFuel_succ_not_over fuel m h]
  exact minimaxCombine_snd m _ _

lemma le_foldl_max_of_exists {s0 : Int} {rest : List Int} {b x : Int}
    (hx : x ∈ s0 :: rest) (hb : b ≤ x) : b ≤ rest.foldl max s0 := by
  rcases List.mem_cons.mp hx with rfl | h
  · exact le_trans hb (foldl_max_init rest x)
  · exact le_trans hb (foldl_max_of_mem s0 h)

lemma foldl_min_le_of_exists {s0 : Int} {rest : List Int} {b x : Int}
    (hx : x ∈ s0 :: rest) (hb : x ≤ b) : rest.foldl min s0 ≤ b := by
  rcases List.mem_cons.mp hx with rfl | h
  · exact le_trans (foldl_min_init rest x) hb
  · exact le_trans (foldl_min_of_mem s0 h) hb

lemma zip_all_forall {α : Type} {cs : List α} {l : List Nat}
    {p : α → Nat → Bool} (hlen : cs.length = l.length)
    (hall : (cs.zip l).all (fun q => p q.1 q.2) = true) :
    ∀ x ∈ l, ∃ c, p c x = true := by
  induction l generalizing cs with
  | nil => intro x hx; cases hx
  | cons a t ih =>
    match cs, hlen with
    | c :: cs', hlen =>
      simp only [List.zip_cons_cons, List.all_cons, Bool.and_eq_true] at hall
      intro x hx
      rcases List.mem_cons.mp hx with rfl | hxt
      · exact ⟨c, hall.1⟩
      · exact ih (by simpa using hlen) hall.2 x hxt

lemma certBound_le_minimaxFuel : ∀ (fuel : Nat) (b : Int) (c : Cert)
    (g : GameState) (m : Bool),
    certBound fuel true b c g m = true →
    b ≤ (minimaxFuel fuel g m).1.2 := by
  intro fuel
  induction fuel with
  | zero =>
    intro b c g m hc
    simp [certBound] at hc
  | succ fuel ih =>
    intro b c g m hc
    by_cases hov : (check_win g).2 = true
    · simp only [certBound, hov, if_true] at hc
      rw [minimaxFuel_succ_over fuel m hov]
      show b ≤ (if (check_win g).1 = (PLAYER_ONE : Int)
        then (get_num_moves g : Int) - 10
        else if (check_win g).1 = (PLAYER_TWO : Int)
        then 10 - (get_num_moves g : Int) else 0)
      exact of_decide_eq_true hc
    · have hovf : (check_win g).2 = false := by simpa using hov
      simp only [certBound, hovf, Bool.false_eq_true, if_false] at hc
      rw [minimaxFuel_snd_not_over fuel m hovf]
      cases c with
      | stop => simp at hc
      | pick i c' =>
        simp only [Bool.and_eq_true] at hc
        obtain ⟨⟨hm, hcont⟩, hrec⟩ := hc
        have hm' : m = true := by simpa using hm
        subst hm'
        have hi : i ∈ get_available_moves g := by simpa using hcont
        have hb := ih b c' (add_move_ok g i) (!true) hrec
        rcases havl : get_available_moves g with _ | ⟨a, rest⟩
        · rw [havl] at hi; cases hi
        · rw [havl] at hi
          refine le_foldl_max_of_exists ?_ hb
          simpa only [List.map_cons] using List.mem_map_of_mem
            (fun j => (minimaxFuel fuel (add_move_ok g j) (!true)).1.2) hi
      | branch cs =>
        simp only [Bool.and_eq_true] at hc
        obtain ⟨⟨⟨hm, hlen⟩, hne⟩, hall⟩ := hc
        have hm' : m = false := by
          rcases Bool.dichotomy m with h | h
          · exact h
          · rw [h] at hm; simp at hm
        subst hm'
        have hlen' : cs.length = (get_available_moves g).length := by
          simpa using hlen
        have hcsne : cs.length ≠ 0 := by simpa using hne
        have hforall := zip_all_forall
          (p := fun c x => certBound fuel true b c (add_move_ok g x) (!false))
          hlen' hall
        have hbs : ∀ x ∈ (get_available_moves g).map (fun i =>
            (minimaxFuel fuel (add_move_ok g i) (!false)).1.2), b ≤ x := by
          intro x hx
          obtain ⟨j, hj, rfl⟩ := List.mem_map.mp hx
          obtain ⟨cj, hcj⟩ := hforall j hj
          exact ih b cj (add_move_ok g j) (!false) hcj
        rcases havl : get_available_moves g with _ | ⟨a, rest⟩
        · rw [havl] at hlen'
          simp only [List.length_nil] at hlen'
          exact absurd hlen' hcsne
        · rw [havl] at hbs
          simp only [List.map_cons, Bool.false_eq_true, if_false]
          refine le_foldl_min ?_ ?_
          · exact hbs _ (List.mem_cons_self _ _)
          · exact fun x hx => hbs x (List.mem_cons_of_mem _ hx)

lemma minimaxFuel_le_certBound : ∀ (fuel : Nat) (b : Int) (c : Cert)
    (g : GameState) (m : Bool),
    certBound fuel false b c g m = true →
    (minimaxFuel fuel g m).1.2 ≤ b := by
  intro fuel
  induction fuel with
  | zero =>
    intro b c g m hc
    simp [certBound] at hc
  | succ fuel ih =>
    intro b c g m hc
    by_cases hov : (check_win g).2 = true
    · simp only [certBound, hov, if_true] at hc
      rw [minimaxFuel_succ_over fuel m hov]
      show (if (check_win g).1 = (PLAYER_ONE : Int)
        then (get_num_moves g : Int) - 10
        else if (check_win g).1 = (PLAYER_TWO : Int)
        then 10 - (get_num_moves g : Int) else 0) ≤ b
      exact of_decide_eq_true hc
    · have hovf : (check_win g).2 = false := by simpa using hov
      simp only [certBound, hovf, Bool.false_eq_true, if_false] at hc
      rw [minimaxFuel_snd_not_over fuel m hovf]
      cases c with
      | stop => simp at hc
      | pick i c' =>
        simp only [Bool.and_eq_true] at hc
        obtain ⟨⟨hm, hcont⟩, hrec⟩ := hc
        have hm' : m = false := by
          rcases Bool.dichotomy m with h | h
          · exact h
          · rw [h] at hm; simp at hm
        subst hm'
        have hi : i ∈ get_available_moves g := by simpa using hcont
        have hb := ih b c' (add_move_ok g i) (!false) hrec
        rcases havl : get_available_moves g with _ | ⟨a, rest⟩
        · rw [havl] at hi; cases hi
        · rw [havl] at hi
          refine foldl_min_le_of_exists ?_ hb
          simpa only [List.map_cons] using List.mem_map_of_mem
            (fun j => (minimaxFuel fuel (add_move_ok g j) (!false)).1.2) hi
      | branch cs =>
        simp only [Bool.and_eq_true] at hc
        obtain ⟨⟨⟨hm, hlen⟩, hne⟩, hall⟩ := hc
        have hm' : m = true := by simpa using hm
        subst hm'
        have hlen' : cs.length = (get_available_moves g).length := by
          simpa using hlen
        have hcsne : cs.length ≠ 0 := by simpa using hne
        have hforall := zip_all_forall
          (p := fun c x => certBound fuel false b c (add_move_ok g x) (!true))
          hlen' hall
        have hbs : ∀ x ∈ (get_available_moves g).map (fun i =>
            (minimaxFuel fuel (add_move_ok g i) (!true)).1.2), x ≤ b := by
          intro x hx
          obtain ⟨j, hj, rfl⟩ := List.mem_map.mp hx
          obtain ⟨cj, hcj⟩ := hforall j hj
          exact ih b cj (add_move_ok g j) (!true) hcj
        rcases havl : get_available_moves g with _ | ⟨a, rest⟩
        · rw [havl] at hlen'
          simp only [List.length_nil] at hlen'
          exact absurd hlen' hcsne
        · rw [havl] at hbs
          simp only [List.map_cons, if_true]
          refine foldl_max_le ?_ ?_
          · exact hbs _ (List.mem_cons_self _ _)
          · exact fun x hx => hbs x (List.mem_cons_of_mem _ hx)

/-! ### Characterizing `check_win` -/

lemma check_win_fold_none (g : GameState) :
    ∀ (combos : List (List Nat)) (acc : Int × Bool),
      (∀ c ∈ combos, (c.all (fun i => g.playerOneMoves.contains i)) = false) →
      (∀ c ∈ combos, (c.all (fun i => g.playerTwoMoves.contains i)) = false) →
      combos.foldl (check_win_step g) acc = acc := by
  intro combos
  induction combos with
  | nil => intro acc _ _; rfl
  | cons c rest ih =>
    intro acc h1 h2
    have hc1 := h1 c (List.mem_cons_self _ _)
    have hc2 := h2 c (List.mem_cons_self _ _)
    show List.foldl (check_win_step g) (check_win_step g acc c) rest = acc
    rw [show check_win_step g acc c = acc by
      unfold check_win_step; rw [hc1, hc2]; simp]
    exact ih acc (fun d hd => h1 d (List.mem_cons_of_mem _ hd))
      (fun d hd => h2 d (List.mem_cons_of_mem _ hd))

lemma check_win_fold_stay_p1 (g : GameState) :
    ∀ (combos : List (List Nat)),
      (∀ c ∈ combos, (c.all (fun i => g.playerTwoMoves.contains i)) = false) →
      combos.foldl (check_win_step g) ((PLAYER_ONE : Int), true)
        = ((PLAYER_ONE : Int), true) := by
  intro combos
  induction combos with
  | nil => intro _; rfl
  | cons c rest ih =>
    intro h2
    have hc2 := h2 c (List.mem_cons_self _ _)
    show List.foldl (check_win_step g)
      (check_win_step g ((PLAYER_ONE : Int), true) c) rest = _
    rw [show check_win_step g ((PLAYER_ONE : Int), true) c
        = ((PLAYER_ONE : Int), true) by
      unfold check_win_step; rw [hc2]; simp]
    exact ih (fun d hd => h2 d (List.mem_cons_of_mem _ hd))

lemma check_win_fold_stay_p2 (g : GameState) :
    ∀ (combos : List (List Nat)),
      (∀ c ∈ combos, (c.all (fun i => g.playerOneMoves.contains i)) = false) →
      combos.foldl (check_win_step g) ((PLAYER_TWO : Int), true)
        = ((PLAYER_TWO : Int), true) := by
  intro combos
  induction combos with
  | nil => intro _; rfl
  | cons c rest ih =>
    intro h1
    have hc1 := h1 c (List.mem_cons_self _ _)
    show List.foldl (check_win_step g)
      (check_win_step g ((PLAYER_TWO : Int), true) c) rest = _
    rw [show check_win_step g ((PLAYER_TWO : Int), true) c
        = ((PLAYER_TWO : Int), true) by
      unfold check_win_step; rw [hc1]; simp]
    exact ih (fun d hd => h1 d (List.mem_cons_of_mem _ hd))

lemma check_win_fold_p1 (g : GameState) :
    ∀ (combos : List (List Nat)) (acc : Int × Bool),
      (∃ c ∈ combos, (c.all (fun i => g.playerOneMoves.contains i)) = true) →
      (∀ c ∈ combos, (c.all (fun i => g.playerTwoMoves.contains i)) = false) →
      combos.foldl (check_win_step g) acc = ((PLAYER_ONE : Int), true) := by
  intro combos
  induction combos with
  | nil => rintro acc ⟨c, hc, _⟩ _; cases hc
  | cons c rest ih =>
    rintro acc hex h2
    have hc2 := h2 c (List.mem_cons_self _ _)
    by_cases hc1 : (c.all (fun i => g.playerOneMoves.contains i)) = true
    · show List.foldl (check_win_step g) (check_win_step g acc c) rest = _
      rw [show check_win_step g acc c = ((PLAYER_ONE : Int), true) by
        unfold check_win_step; rw [hc1]; simp]
      exact check_win_fold_stay_p1 g rest
        (fun d hd => h2 d (List.mem_cons_of_mem _ hd))
    · obtain ⟨d, hd, hda⟩ := hex
      rcases List.mem_cons.mp hd with rfl | hdr
      · exact absurd hda hc1
      · show List.foldl (check_win_step g) (check_win_step g acc c) rest = _
        rw [show check_win_step g acc c = acc by
          unfold check_win_step
          rw [(Bool.eq_false_iff.mpr hc1 : _ = false), hc2]; simp]
        exact ih acc ⟨d, hdr, hda⟩
          (fun d' hd' => h2 d' (List.mem_cons_of_mem _ hd'))

lemma check_win_fold_p2 (g : GameState) :
    ∀ (combos : List (List Nat)) (acc : Int × Bool),
      (∀ c ∈ combos, (c.all (fun i => g.playerOneMoves.contains i)) = false) →
      (∃ c ∈ combos, (c.all (fun i => g.playerTwoMoves.contains i)) = true) →
      combos.foldl (check_win_step g) acc = ((PLAYER_TWO : Int), true) := by
  intro combos
  induction combos with
  | nil => rintro acc _ ⟨c, hc, _⟩; cases hc
  | cons c rest ih =>
    rintro acc h1 hex
    have hc1 := h1 c (List.mem_cons_self _ _)
    by_cases hc2 : (c.all (fun i => g.playerTwoMoves.contains i)) = true
    · show List.foldl (check_win_step g) (check_win_step g acc c) rest = _
      rw [show check_win_step g acc c = ((PLAYER_TWO : Int), true) by
        unfold check_win_step; rw [hc1, hc2]; simp]
      exact check_win_fold_stay_p2 g rest
        (fun d hd => h1 d (List.mem_cons_of_mem _ hd))
    · obtain ⟨d, hd, hda⟩ := hex
      rcases List.mem_cons.mp hd with rfl | hdr
      · exact absurd hda hc2
      · show List.foldl (check_win_step g) (check_win_step g acc c) rest = _
        rw [show check_win_step g acc c = acc by
          unfold check_win_step
          rw [hc1, (Bool.eq_false_iff.mpr hc2 : _ = false)]; simp]
        exact ih acc (fun d' hd' => h1 d' (List.mem_cons_of_mem _ hd'))
          ⟨d, hdr, hda⟩

lemma has_line_exists {moves : List Nat} (h : has_line moves = true) :
    ∃ c ∈ winningCombos, (c.all (fun i => moves.contains i)) = true := by
  simpa [has_line, List.any_eq_true] using h

lemma has_line_forall {moves : List Nat} (h : has_line moves = false) :
    ∀ c ∈ winningCombos, (c.all (fun i => moves.contains i)) = false := by
  intro c hc
  by_contra hne
  have hct : (c.all (fun i => moves.contains i)) = true := by
    rcases Bool.dichotomy (c.all (fun i => moves.contains i)) with hb | hb
    · exact absurd hb hne
    · exact hb
  have : has_line moves = true := by
    unfold has_line
    exact List.any_eq_true.mpr ⟨c, hc, hct⟩
  rw [this] at h
  cases h

lemma check_win_eq_p1 {g : GameState}
    (h1 : has_line g.playerOneMoves = true)
    (h2 : has_line g.playerTwoMoves = false) :
    check_win g = ((PLAYER_ONE : Int), true) :=
  check_win_fold_p1 g winningCombos _ (has_line_exists h1) (has_line_forall h2)

lemma check_win_eq_p2 {g : GameState}
    (h1 : has_line g.playerOneMoves = false)
    (h2 : has_line g.playerTwoMoves = true) :
    check_win g = ((PLAYER_TWO : Int), true) :=
  check_win_fold_p2 g winningCombos _ (has_line_forall h1) (has_line_exists h2)

lemma check_win_eq_none {g : GameState}
    (h1 : has_line g.playerOneMoves = false)
    (h2 : has_line g.playerTwoMoves = false) :
    check_win g = ((-1 : Int), g.allMoves.length == 9) :=
  check_win_fold_none g winningCombos _ (has_line_forall h1) (has_line_forall h2)

lemma avail_nil_iff (g : GameState) :
    get_available_moves g = [] ↔ ∀ c ∈ g.currentBoard, c ≠ Cell.empty := by
  constructor
  · intro h c hc hce
    subst hce
    obtain ⟨k, hk, hck⟩ := List.mem_iff_getElem.mp hc
    have hkav : k ∈ get_available_moves g :=
      mem_get_available_moves.mpr ⟨hk, by
        rw [List.getD_eq_getElem?_getD, List.getElem?_eq_getElem hk, hck]; rfl⟩
    rw [h] at hkav
    cases hkav
  · intro h
    rcases havl : get_available_moves g with _ | ⟨a, rest⟩
    · rfl
    · exfalso
      have ha : a ∈ get_available_moves g := by
        rw [havl]; exact List.mem_cons_self _ _
      obtain ⟨hlt, he⟩ := mem_get_available_moves.mp ha
      have hmem : g.currentBoard.getD a Cell.empty ∈ g.currentBoard := by
        rw [List.getD_eq_getElem?_getD, List.getElem?_eq_getElem hlt]
        exact List.getElem_mem hlt
      exact h _ hmem he

/-! ### Even- and odd-position entries of the move history -/

lemma entriesAt_append (l : List Nat) (x : Nat) :
    (entriesAt 0 (l ++ [x])
      = if l.length % 2 = 0 then entriesAt 0 l ++ [x] else entriesAt 0 l) ∧
    (entriesAt 1 (l ++ [x])
      = if l.length % 2 = 1 then entriesAt 1 l ++ [x] else entriesAt 1 l) := by
  induction l with
  | nil => simp [entriesAt]
  | cons a t ih =>
    constructor
    · show a :: entriesAt 1 (t ++ [x]) = _
      rw [ih.2]
      rcases Nat.mod_two_eq_zero_or_one t.length with hp | hp
      · have h1 : (a :: t).length % 2 = 1 := by simp [List.length_cons]; omega
        simp only [hp, h1, entriesAt]
        simp
      · have h1 : (a :: t).length % 2 = 0 := by simp [List.length_cons]; omega
        simp only [hp, h1, entriesAt]
        simp
    · show entriesAt 0 (t ++ [x]) = _
      rw [ih.1]
      rcases Nat.mod_two_eq_zero_or_one t.length with hp | hp
      · have h1 : (a :: t).length % 2 = 1 := by simp [List.length_cons]; omega
        simp only [hp, h1, entriesAt]
        simp
      · have h1 : (a :: t).length % 2 = 0 := by simp [List.length_cons]; omega
        simp only [hp, h1, entriesAt]
        simp

/-! ### Invariants of reachable states -/

lemma reachable_inv {g : GameState} (h : Reachable g) :
    g.currentPlayer = g.allMoves.length % 2 ∧
    g.playerOneMoves = entriesAt 0 g.allMoves ∧
    g.playerTwoMoves = entriesAt 1 g.allMoves ∧
    g.currentBoard.length = 9 ∧
    (get_available_moves g).length + g.allMoves.length = 9 := by
  induction h with
  | base =>
    refine ⟨rfl, rfl, rfl, rfl, ?_⟩
    decide
  | @step g i hr hi ih =>
    obtain ⟨hpl, hp1, hp2, hb, hcnt⟩ := ih
    have hdec := avail_length_add_move hi
    refine ⟨?_, ?_, ?_, ?_, ?_⟩
    · rw [add_move_ok_player, add_move_ok_allMoves, hpl, List.length_append]
      simp only [List.length_cons, List.length_nil]
      omega
    · rw [add_move_ok_p1, add_move_ok_allMoves]
      rcases Nat.mod_two_eq_zero_or_one g.allMoves.length with hp | hp
      · have hcp : g.currentPlayer = PLAYER_ONE := by
          rw [hpl, hp]; rfl
        rw [if_pos hcp, (entriesAt_append g.allMoves i).1, if_pos hp, hp1]
      · have hcp : ¬(g.currentPlayer = PLAYER_ONE) := by
          rw [hpl, hp]; decide
        rw [if_neg hcp, (entriesAt_append g.allMoves i).1, if_neg (by omega), hp1]
    · rw [add_move_ok_p2, add_move_ok_allMoves]
      rcases Nat.mod_two_eq_zero_or_one g.allMoves.length with hp | hp
      · have hcp : g.currentPlayer = PLAYER_ONE := by
          rw [hpl, hp]; rfl
        rw [if_pos hcp, (entriesAt_append g.allMoves i).2, if_neg (by omega), hp2]
      · have hcp : ¬(g.currentPlayer = PLAYER_ONE) := by
          rw [hpl, hp]; decide
        rw [if_neg hcp, (entriesAt_append g.allMoves i).2, if_pos hp, hp2]
    · rw [add_move_ok_board, List.length_set]
      exact hb
    · rw [add_move_ok_allMoves, List.length_append]
      simp only [List.length_cons, List.length_nil]
      omega

/-! ### The bitmask mirror agrees with the state -/

lemma all_congr_bool {α : Type} {l : List α} {p q : α → Bool}
    (h : ∀ x ∈ l, p x = q x) : l.all p = l.all q := by
  induction l with
  | nil => rfl
  | cons a t ih =>
    simp only [List.all_cons]
    rw [h a (List.mem_cons_self _ _),
      ih (fun x hx => h x (List.mem_cons_of_mem _ hx))]

lemma mem_iff_eq_testBit {moves : List Nat} {p : Nat}
    (h : ∀ i, i ∈ moves ↔ p.testBit i = true) (i : Nat) :
    (moves.contains i) = p.testBit i := by
  rw [Bool.eq_iff_iff]
  constructor
  · intro hc
    exact (h i).mp (by simpa using hc)
  · intro hb
    simpa using (h i).mpr hb

lemma fcheck_eq {g : GameState} {p1 p2 t n : Nat}
    (hR : MaskRel g p1 p2 t n) : check_win g = fcheck p1 p2 n := by
  obtain ⟨-, h1, h2, -, -, -, hn, -⟩ := hR
  unfold check_win fcheck
  rw [hn]
  refine List.foldl_ext _ _ _ (fun acc combo _ => ?_)
  unfold check_win_step
  rw [all_congr_bool (fun x _ => mem_iff_eq_testBit h1 x),
    all_congr_bool (fun x _ => mem_iff_eq_testBit h2 x)]

lemma favail_eq {g : GameState} {p1 p2 t n : Nat}
    (hR : MaskRel g p1 p2 t n) : get_available_moves g = favail p1 p2 := by
  obtain ⟨hb, -, -, hmark, -, -, -, -⟩ := hR
  rw [get_available_moves_eq, hb]
  unfold favail
  refine List.filter_congr (fun i hi => ?_)
  have hi9 : i < 9 := List.mem_range.mp hi
  obtain ⟨hx, ho⟩ := hmark i hi9
  rw [Bool.eq_iff_iff, Nat.testBit_or]
  cases hcell : g.currentBoard.getD i Cell.empty with
  | empty =>
    rw [hcell] at hx ho
    have hb1 : p1.testBit i = false := by
      rcases Bool.dichotomy (p1.testBit i) with h | h
      · exact h
      · exact absurd (hx.mpr h) (by simp)
    have hb2 : p2.testBit i = false := by
      rcases Bool.dichotomy (p2.testBit i) with h | h
      · exact h
      · exact absurd (ho.mpr h) (by simp)
    simp [hb1, hb2]
  | x =>
    rw [hcell] at hx
    have hb1 : p1.testBit i = true := hx.mp rfl
    simp [hb1]
  | o =>
    rw [hcell] at ho
    have hb2 : p2.testBit i = true := ho.mp rfl
    simp [hb2]

lemma maskRel_add_move {g : GameState} {p1 p2 t n i : Nat}
    (hR : MaskRel g p1 p2 t n) (hi : i ∈ get_available_moves g) :
    MaskRel (add_move_ok g i)
      (if t = PLAYER_ONE then p1 ||| 2 ^ i else p1)
      (if t = PLAYER_ONE then p2 else p2 ||| 2 ^ i)
      ((t + 1) % 2) (n + 1) := by
  obtain ⟨hb, h1, h2, hmark, hp1, hp2, hn, ht⟩ := hR
  obtain ⟨hilt, hie⟩ := mem_get_available_moves.mp hi
  have hi9 : i < 9 := by omega
  obtain ⟨hxi, hoi⟩ := hmark i hi9
  rw [hie] at hxi hoi
  have hb1 : p1.testBit i = false := by
    rcases Bool.dichotomy (p1.testBit i) with h | h
    · exact h
    · exact absurd (hxi.mpr h) (by simp)
  have hb2 : p2.testBit i = false := by
    rcases Bool.dichotomy (p2.testBit i) with h | h
    · exact h
    · exact absurd (hoi.mpr h) (by simp)
  have hpow : (2 : Nat) ^ i < 512 := by interval_cases i <;> decide
  have hmem1 : ∀ j, (j ∈ g.playerOneMoves ++ [i]
      ↔ (p1 ||| 2 ^ i).testBit j = true) := by
    intro j
    simp only [List.mem_append, List.mem_singleton, Nat.testBit_or,
      Nat.testBit_two_pow, Bool.or_eq_true, decide_eq_true_eq]
    constructor
    · rintro (hj | rfl)
      · exact Or.inl ((h1 j).mp hj)
      · exact Or.inr rfl
    · rintro (hj | hij)
      · exact Or.inl ((h1 j).mpr hj)
      · exact Or.inr hij.symm
  have hmem2 : ∀ j, (j ∈ g.playerTwoMoves ++ [i]
      ↔ (p2 ||| 2 ^ i).testBit j = true) := by
    intro j
    simp only [List.mem_append, List.mem_singleton, Nat.testBit_or,
      Nat.testBit_two_pow, Bool.or_eq_true, decide_eq_true_eq]
    constructor
    · rintro (hj | rfl)
      · exact Or.inl ((h2 j).mp hj)
      · exact Or.inr rfl
    · rintro (hj | hij)
      · exact Or.inl ((h2 j).mpr hj)
      · exact Or.inr hij.symm
  refine ⟨by rw [add_move_ok_board, List.length_set]; exact hb,
    ?_, ?_, ?_, ?_, ?_,
    by rw [add_move_ok_allMoves, List.length_append, hn]; rfl,
    by rw [add_move_ok_player, ht]⟩
  · intro j
    rw [add_move_ok_p1, ht]
    by_cases htp : t = PLAYER_ONE
    · rw [if_pos htp, if_pos htp]
      exact hmem1 j
    · rw [if_neg htp, if_neg htp]
      exact h1 j
  · intro j
    rw [add_move_ok_p2, ht]
    by_cases htp : t = PLAYER_ONE
    · rw [if_pos htp, if_pos htp]
      exact h2 j
    · rw [if_neg htp, if_neg htp]
      exact hmem2 j
  · intro j hj9
    rw [add_move_ok_board]
    unfold add_move_symbol
    rw [ht]
    rcases eq_or_ne j i with rfl | hne
    · rw [getD_set_self _ _ _ _ hilt]
      by_cases htp : t = PLAYER_ONE
      · rw [if_pos htp, if_pos htp, if_pos htp]
        constructor
        · simp [Nat.testBit_or, Nat.testBit_two_pow]
        · rw [hb2]
          simp
      · rw [if_neg htp, if_neg htp, if_neg htp]
        constructor
        · rw [hb1]
          simp
        · simp [Nat.testBit_or, Nat.testBit_two_pow]
    · rw [getD_set_ne _ _ _ (fun h => hne h.symm)]
      obtain ⟨hxj, hoj⟩ := hmark j hj9
      have hdj : ((2 : Nat) ^ i).testBit j = false :=
        Nat.testBit_two_pow_of_ne (fun h => hne h.symm)
      by_cases htp : t = PLAYER_ONE
      · rw [if_pos htp, if_pos htp]
        constructor
        · rw [Nat.testBit_or, hdj, Bool.or_false]
          exact hxj
        · exact hoj
      · rw [if_neg htp, if_neg htp]
        constructor
        · exact hxj
        · rw [Nat.testBit_or, hdj, Bool.or_false]
          exact hoj
  · by_cases htp : t = PLAYER_ONE
    · rw [if_pos htp]
      have h512 : (512 : Nat) = 2 ^ 9 := rfl
      rw [h512] at hp1 hpow ⊢
      exact Nat.or_lt_two_pow hp1 hpow
    · rw [if_neg htp]
      exact hp1
  · by_cases htp : t = PLAYER_ONE
    · rw [if_pos htp]
      exact hp2
    · rw [if_neg htp]
      have h512 : (512 : Nat) = 2 ^ 9 := rfl
      rw [h512] at hp2 hpow ⊢
      exact Nat.or_lt_two_pow hp2 hpow

lemma fastCertBound_eq : ∀ (fuel : Nat) (lower : Bool) (b : Int) (c : Cert)
    (g : GameState) (p1 p2 t n : Nat) (m : Bool), MaskRel g p1 p2 t n →
    fastCertBound fuel lower b c p1 p2 t n m = certBound fuel lower b c g m := by
  intro fuel
  induction fuel with
  | zero => intro lower b c g p1 p2 t n m _; rfl
  | succ fuel ih =>
    intro lower b c g p1 p2 t n m hR
    have hcw := fcheck_eq hR
    have hav := favail_eq hR
    have hnum : get_num_moves g = n := by
      unfold get_num_moves
      exact hR.2.2.2.2.2.2.1
    by_cases hov : (fcheck p1 p2 n).2 = true
    · have hov' : (check_win g).2 = true := by rw [hcw]; exact hov
      simp only [fastCertBound, certBound, hov, hov', if_true, hcw, hnum]
    · have hovf : (fcheck p1 p2 n).2 = false := by simpa using hov
      have hov' : (check_win g).2 = false := by rw [hcw]; exact hovf
      cases c with
      | stop =>
        simp only [fastCertBound, certBound, hovf, hov', Bool.false_eq_true,
          if_false]
      | pick i c' =>
        simp only [fastCertBound, certBound, hovf, hov', Bool.false_eq_true,
          if_false]
        rw [hav]
        by_cases hct : (favail p1 p2).contains i = true
        · have hmemi : i ∈ get_available_moves g := by
            rw [hav]
            simpa using hct
          rw [ih lower b c' (add_move_ok g i) _ _ _ _ (!m)
            (maskRel_add_move hR hmemi)]
        · have hcf : (favail p1 p2).contains i = false := by simpa using hct
          rw [hcf]
          simp
      | branch cs =>
        simp only [fastCertBound, certBound, hovf, hov', Bool.false_eq_true,
          if_false]
        rw [hav]
        have hall : ((cs.zip (favail p1 p2)).all (fun p =>
            fastCertBound fuel lower b p.1
              (if t = PLAYER_ONE then p1 ||| 2 ^ p.2 else p1)
              (if t = PLAYER_ONE then p2 else p2 ||| 2 ^ p.2)
              ((t + 1) % 2) (n + 1) (!m)))
          = ((cs.zip (favail p1 p2)).all (fun p =>
            certBound fuel lower b p.1 (add_move_ok g p.2) (!m))) := by
          refine all_congr_bool (fun q hq => ?_)
          obtain ⟨qc, qi⟩ := q
          have hq2 : qi ∈ get_available_moves g := by
            rw [hav]
            exact (List.of_mem_zip hq).2
          exact ih lower b qc (add_move_ok g qi) _ _ _ _ (!m)
            (maskRel_add_move hR hq2)
        rw [hall]

lemma maskRel_init : MaskRel init 0 0 0 0 := by
  refine ⟨rfl, ?_, ?_, ?_, by omega, by omega, rfl, rfl⟩
  · intro i
    simp [init, Nat.zero_testBit]
  · intro i
    simp [init, Nat.zero_testBit]
  · intro i hi
    have hcell : init.currentBoard.getD i Cell.empty = Cell.empty := by
      show (List.replicate 9 Cell.empty).getD i Cell.empty = Cell.empty
      rw [List.getD_eq_getElem?_getD, List.getElem?_replicate_of_lt hi]
      rfl
    rw [hcell]
    simp [Nat.zero_testBit]

/-! ### The claims -/

/-- C1 (amended).  `add_move` performs no validation and no
`InvalidMoveError` exists: for any in-range index — including an
occupied cell — it unconditionally records the move (histories
appended, the cell overwritten with the acting player's mark, the
turn flipped); for an out-of-range index the board write raises
`IndexError`, and even then the histories have already been mutated
(board and turn are untouched).  Validation lives in the callers. -/
theorem claim1_add_move_no_validation (g : GameState) (i : Nat) :
    (i < g.currentBoard.length →
      add_move g i = Except.ok (add_move_ok g i) ∧
      (add_move_ok g i).allMoves = g.allMoves ++ [i] ∧
      (add_move_ok g i).currentBoard = g.currentBoard.set i (add_move_symbol g) ∧
      (add_move_ok g i).currentPlayer = (g.currentPlayer + 1) % 2) ∧
    (g.currentBoard.length ≤ i →
      add_move g i = Except.error (PyError.indexError, add_move_hist g i) ∧
      (add_move_hist g i).allMoves = g.allMoves ++ [i] ∧
      (add_move_hist g i).currentBoard = g.currentBoard ∧
      (add_move_hist g i).currentPlayer = g.currentPlayer) := by
  constructor
  · intro h
    exact ⟨by simp [add_move, h], add_move_ok_allMoves g i,
      add_move_ok_board g i, add_move_ok_player g i⟩
  · intro h
    refine ⟨by simp [add_move, Nat.not_lt.mpr h], ?_, ?_, ?_⟩
    · unfold add_move_hist
      split <;> simp
    · unfold add_move_hist
      split <;> rfl
    · unfold add_move_hist
      split <;> rfl

/-- C1, counterexample to the claim as stated: cell 0 of `gOcc` is
occupied, yet `add_move` succeeds (no error) and the state changes. -/
theorem claim1_counterexample :
    gOcc.currentBoard.getD 0 Cell.empty ≠ Cell.empty ∧
    add_move gOcc 0 = Except.ok (add_move_ok gOcc 0) ∧
    add_move_ok gOcc 0 ≠ gOcc :=
  ⟨by decide, rfl, by decide⟩

/-- C1, witness for the amended theorem at concrete inputs. -/
theorem claim1_witness :
    (add_move gOcc 0 = Except.ok (add_move_ok gOcc 0) ∧
      (add_move_ok gOcc 0).allMoves = gOcc.allMoves ++ [0] ∧
      (add_move_ok gOcc 0).currentBoard
        = gOcc.currentBoard.set 0 (add_move_symbol gOcc) ∧
      (add_move_ok gOcc 0).currentPlayer = (gOcc.currentPlayer + 1) % 2) ∧
    (add_move gOcc 9 = Except.error (PyError.indexError, add_move_hist gOcc 9) ∧
      (add_move_hist gOcc 9).allMoves = gOcc.allMoves ++ [9] ∧
      (add_move_hist gOcc 9).currentBoard = gOcc.currentBoard ∧
      (add_move_hist gOcc 9).currentPlayer = gOcc.currentPlayer) :=
  ⟨(claim1_add_move_no_validation gOcc 0).1 (by decide),
   (claim1_add_move_no_validation gOcc 9).2 (by decide)⟩

/-- C2.  On a well-formed non-terminal state, for both values of the
maximizing flag, the move returned by `minimax` is one of the
available moves — equivalently, the cell at that index is empty. -/
theorem claim2_search_move_available (g : GameState) (m : Bool)
    (hw : WellFormed g) (hnt : (check_win g).2 = false) :
    (minimax g m).1 ∈ get_available_moves g ∧
    g.currentBoard.getD (minimax g m).1 Cell.empty = Cell.empty := by
  have hmem : (minimax g m).1 ∈ get_available_moves g := by
    unfold minimax
    exact minimaxFuel_move_mem _ g m hw hnt (by omega)
  exact ⟨hmem, (mem_get_available_moves.mp hmem).2⟩

/-- C2, witness on the fresh empty state. -/
theorem claim2_witness :
    (minimax init true).1 ∈ get_available_moves init ∧
    init.currentBoard.getD (minimax init true).1 Cell.empty = Cell.empty :=
  claim2_search_move_available init true (by decide) (by decide)

set_option maxRecDepth 2000000 in
set_option maxHeartbeats 1000000000 in
/-- C3.  Calling `minimax` with `maximize = true` on the freshly
created empty game state returns score 0: the certificates `certL`
and `certU` (checked here by kernel computation) bound the score
below and above by 0 through the soundness lemmas
`certBound_le_minimaxFuel` and `minimaxFuel_le_certBound`. -/
theorem claim3_empty_board_draw_score : (minimax init true).2 = 0 := by
  have hfL : fastCertBound 10 true 0 certL 0 0 0 0 true = true := by decide
  have hfU : fastCertBound 10 false 0 certU 0 0 0 0 true = true := by decide
  have hL : certBound 10 true 0 certL init true = true := by
    rw [← fastCertBound_eq 10 true 0 certL init 0 0 0 0 true maskRel_init]
    exact hfL
  have hU : certBound 10 false 0 certU init true = true := by
    rw [← fastCertBound_eq 10 false 0 certU init 0 0 0 0 true maskRel_init]
    exact hfU
  have hlen : (get_available_moves init).length = 9 := by decide
  have h1 : (0 : Int) ≤ (minimaxFuel 10 init true).1.2 :=
    certBound_le_minimaxFuel 10 0 certL init true hL
  have h2 : (minimaxFuel 10 init true).1.2 ≤ 0 :=
    minimaxFuel_le_certBound 10 0 certU init true hU
  unfold minimax
  rw [hlen]
  show (minimaxFuel 10 init true).1.2 = 0
  omega

/-- C4.  On a well-formed state where (as the specification's
well-formedness guarantees) the two players do not both hold a
winning line, `check_win` names a player as winner exactly when that
player's move set contains all three indices of one of the 8 fixed
lines, and reports the game over exactly when such a winner exists or
every cell is occupied. -/
theorem claim4_check_win_characterization (g : GameState)
    (hw : WellFormed g)
    (hone : ¬(has_line g.playerOneMoves = true ∧
      has_line g.playerTwoMoves = true)) :
    ((check_win g).1 = (PLAYER_ONE : Int) ↔ has_line g.playerOneMoves = true) ∧
    ((check_win g).1 = (PLAYER_TWO : Int) ↔ has_line g.playerTwoMoves = true) ∧
    ((check_win g).2 = true ↔ (has_line g.playerOneMoves = true ∨
      has_line g.playerTwoMoves = true ∨
      ∀ c ∈ g.currentBoard, c ≠ Cell.empty)) := by
  have hcnt := hw.2
  rcases Bool.dichotomy (has_line g.playerOneMoves) with h1 | h1 <;>
    rcases Bool.dichotomy (has_line g.playerTwoMoves) with h2 | h2
  · have hcw := check_win_eq_none h1 h2
    have hfull : g.allMoves.length = 9 ↔
        ∀ c ∈ g.currentBoard, c ≠ Cell.empty := by
      rw [← avail_nil_iff g, ← List.length_eq_zero]
      omega
    refine ⟨iff_of_false (by rw [hcw]; norm_num [PLAYER_ONE])
        (by simp [h1]),
      iff_of_false (by rw [hcw]; norm_num [PLAYER_TWO]) (by simp [h2]), ?_⟩
    rw [hcw]
    simp only [h1, h2, Bool.false_eq_true, false_or]
    rw [show (((-1 : Int), g.allMoves.length == 9).2 = true)
        = ((g.allMoves.length == 9) = true) from rfl]
    rw [beq_iff_eq]
    exact hfull
  · have hcw := check_win_eq_p2 h1 h2
    refine ⟨iff_of_false (by rw [hcw]; norm_num [PLAYER_ONE, PLAYER_TWO])
        (by simp [h1]),
      iff_of_true (by rw [hcw]) h2, ?_⟩
    exact iff_of_true (by rw [hcw]) (Or.inr (Or.inl h2))
  · have hcw := check_win_eq_p1 h1 h2
    refine ⟨iff_of_true (by rw [hcw]) h1,
      iff_of_false (by rw [hcw]; norm_num [PLAYER_ONE, PLAYER_TWO])
        (by simp [h2]), ?_⟩
    exact iff_of_true (by rw [hcw]) (Or.inl h1)
  · exact absurd ⟨h1, h2⟩ hone

/-- C4, witness on a state player one has just won. -/
theorem claim4_witness :
    ((check_win gWin1).1 = (PLAYER_ONE : Int)
      ↔ has_line gWin1.playerOneMoves = true) ∧
    ((check_win gWin1).1 = (PLAYER_TWO : Int)
      ↔ has_line gWin1.playerTwoMoves = true) ∧
    ((check_win gWin1).2 = true ↔ (has_line gWin1.playerOneMoves = true ∨
      has_line gWin1.playerTwoMoves = true ∨
      ∀ c ∈ gWin1.currentBoard, c ≠ Cell.empty)) :=
  claim4_check_win_characterization gWin1 (by decide) (by decide)

/-- C5.  On a terminal well-formed state the score returned by
`minimax` is `moveCount - 10` when player one won (and it is
negative), `10 - moveCount` when player two won (positive), and `0`
on a draw. -/
theorem claim5_terminal_score (g : GameState) (m : Bool)
    (hw : WellFormed g) (hov : (check_win g).2 = true) :
    ((check_win g).1 = (PLAYER_ONE : Int) →
      (minimax g m).2 = (g.allMoves.length : Int) - 10 ∧ (minimax g m).2 < 0) ∧
    ((check_win g).1 = (PLAYER_TWO : Int) →
      (minimax g m).2 = 10 - (g.allMoves.length : Int) ∧ 0 < (minimax g m).2) ∧
    ((check_win g).1 ≠ (PLAYER_ONE : Int) →
      (check_win g).1 ≠ (PLAYER_TWO : Int) → (minimax g m).2 = 0) := by
  have hlen : g.allMoves.length ≤ 9 := by
    have := hw.2
    omega
  have hval : (minimax g m).2 = (if (check_win g).1 = (PLAYER_ONE : Int)
      then (get_num_moves g : Int) - 10
      else if (check_win g).1 = (PLAYER_TWO : Int)
      then 10 - (get_num_moves g : Int) else 0) := by
    unfold minimax
    rw [minimaxFuel_succ_over _ m hov]
    rfl
  refine ⟨fun hwin => ?_, fun hwin => ?_, fun hne1 hne2 => ?_⟩
  · rw [hval, if_pos hwin]
    unfold get_num_moves
    exact ⟨rfl, by omega⟩
  · have hne : (check_win g).1 ≠ (PLAYER_ONE : Int) := by
      rw [hwin]; decide
    rw [hval, if_neg hne, if_pos hwin]
    unfold get_num_moves
    exact ⟨rfl, by omega⟩
  · rw [hval, if_neg hne1, if_neg hne2]

/-- C5, witness on the state player one has just won in 5 moves
(score `5 - 10 = -5 < 0`). -/
theorem claim5_witness :
    (minimax gWin1 true).2 = (gWin1.allMoves.length : Int) - 10 ∧
    (minimax gWin1 true).2 < 0 :=
  (claim5_terminal_score gWin1 true (by decide) (by decide)).1 (by decide)

/-- C6.  On every reachable state the number of available moves plus
the length of the combined history is 9; it holds for the fresh state
and is preserved by every valid move (`Reachable` is exactly that
closure). -/
theorem claim6_available_plus_moves (g : GameState) (h : Reachable g) :
    (get_available_moves g).length + g.allMoves.length = 9 :=
  (reachable_inv h).2.2.2.2

/-- C6, witness after one valid move from the fresh state. -/
theorem claim6_witness :
    (get_available_moves (add_move_ok init 4)).length
      + (add_move_ok init 4).allMoves.length = 9 :=
  claim6_available_plus_moves _ (Reachable.step Reachable.base (by decide))

/-- C7.  On every reachable state the turn indicator is player one
exactly when the number of completed moves is even; it starts at
player one and is flipped by every applied move. -/
theorem claim7_turn_parity (g : GameState) (h : Reachable g) :
    g.currentPlayer
      = (if g.allMoves.length % 2 = 0 then PLAYER_ONE else PLAYER_TWO) ∧
    init.currentPlayer = PLAYER_ONE ∧
    ∀ i, (add_move_ok g i).currentPlayer = (g.currentPlayer + 1) % 2 := by
  have hp := (reachable_inv h).1
  refine ⟨?_, rfl, fun i => add_move_ok_player g i⟩
  rw [hp]
  rcases Nat.mod_two_eq_zero_or_one g.allMoves.length with h0 | h0 <;>
    simp [h0, PLAYER_ONE, PLAYER_TWO]

/-- C7, witness after one move (odd count, player two to move). -/
theorem claim7_witness :
    (add_move_ok init 0).currentPlayer
      = (if (add_move_ok init 0).allMoves.length % 2 = 0
          then PLAYER_ONE else PLAYER_TWO) ∧
    init.currentPlayer = PLAYER_ONE ∧
    (add_move_ok (add_move_ok init 0) 5).currentPlayer
      = ((add_move_ok init 0).currentPlayer + 1) % 2 := by
  obtain ⟨h1, h2, h3⟩ :=
    claim7_turn_parity (add_move_ok init 0)
      (Reachable.step Reachable.base (by decide))
  exact ⟨h1, h2, h3 5⟩

/-- C8.  `minimax` leaves the state it is called on unchanged: in the
state-threaded embedding (which mirrors that every mutation in the
search body targets the `deepcopy`, never `self`), the state returned
alongside the result is the argument state, component by component. -/
theorem claim8_minimax_frame (fuel : Nat) (g : GameState) (m : Bool) :
    (minimaxFuel fuel g m).2.currentBoard = g.currentBoard ∧
    (minimaxFuel fuel g m).2.playerOneMoves = g.playerOneMoves ∧
    (minimaxFuel fuel g m).2.playerTwoMoves = g.playerTwoMoves ∧
    (minimaxFuel fuel g m).2.allMoves = g.allMoves ∧
    (minimaxFuel fuel g m).2.currentPlayer = g.currentPlayer := by
  rw [minimaxFuel_self]
  exact ⟨rfl, rfl, rfl, rfl, rfl⟩

/-- C9.  The recursion of `minimax` terminates: applying any available
move strictly shrinks the available-move count by one, a well-formed
board has at most 9 available cells, and the fueled recursion is
independent of the fuel once it exceeds the available-move count (so
the recursion bottoms out within at most 9 levels). -/
theorem claim9_termination (g : GameState) (i : Nat)
    (hi : i ∈ get_available_moves g) :
    (get_available_moves (add_move_ok g i)).length + 1
      = (get_available_moves g).length ∧
    (WellFormed g → (get_available_moves g).length ≤ 9) ∧
    (∀ fuel m, (get_available_moves g).length < fuel →
      (minimaxFuel fuel g m).1 = minimax g m) := by
  refine ⟨avail_length_add_move hi, fun hwf => by have := hwf.2; omega,
    fun fuel m hf => ?_⟩
  unfold minimax
  rw [minimaxFuel_congr (get_available_moves g).length fuel
    ((get_available_moves g).length + 1) g m le_rfl hf (by omega)]

/-- C9, witness on the fresh empty state. -/
theorem claim9_witness :
    (get_available_moves (add_move_ok init 4)).length + 1
      = (get_available_moves init).length ∧
    (get_available_moves init).length ≤ 9 ∧
    (minimaxFuel 11 init true).1 = minimax init true := by
  obtain ⟨h1, h2, h3⟩ := claim9_termination init 4 (by decide)
  exact ⟨h1, h2 (by decide), h3 11 true (by decide)⟩

/-- C10.  The move operation takes no player argument — the recorded
mark is decided by the internal turn toggle — so on every reachable
state player one's history is exactly the even-position entries of the
combined history and player two's the odd-position entries. -/
theorem claim10_history_partition (g : GameState) (h : Reachable g) :
    g.playerOneMoves = entriesAt 0 g.allMoves ∧
    g.playerTwoMoves = entriesAt 1 g.allMoves :=
  ⟨(reachable_inv h).2.1, (reachable_inv h).2.2.1⟩

/-- C10, witness after two moves (one per player). -/
theorem claim10_witness :
    (add_move_ok (add_move_ok init 0) 4).playerOneMoves
      = entriesAt 0 (add_move_ok (add_move_ok init 0) 4).allMoves ∧
    (add_move_ok (add_move_ok init 0) 4).playerTwoMoves
      = entriesAt 1 (add_move_ok (add_move_ok init 0) 4).allMoves :=
  claim10_history_partition _
    (Reachable.step (Reachable.step Reachable.base (by decide)) (by decide))

end TicTacToe
